import Mathlib

/-!
A shallow embedding of the itk-wasm Python WASI pipeline runtime
(`src/python/itkwasm/itkwasm/pipeline.py`) and of the generated wrapper stub
`itkwasm_downsample/downsample_label_image_async.py`.

Modelling conventions:
* The wasm guest (its exported allocators/accessors, its linear memory and the
  JSON text it produces for outputs) is represented by a `Guest` record of
  oracle functions.  Host-side computation is embedded concretely.
* Every call into the guest is recorded, in program order, as a `GuestCall`
  event; `Pipeline.run` returns the event trace together with its result.
* Python `bytes` values are `List Nat` (one entry per byte); Python `str`
  values that are only carried around are `String`, while the payload of a
  text stream is kept as its UTF-8 byte sequence (the UTF-8 encode/decode
  steps are bijective on valid data and are abstracted away).
* Python float scalars (`origin`, `spacing`) are carried opaquely as `Rat`;
  they are never computed with.
* Writes of input bytes into guest linear memory are not modelled (no claim
  observes guest memory contents on the input side); the allocator calls that
  precede them are recorded exactly.
* Python exceptions are modelled with `Except`: `RunError.missingExport`
  stands for the attribute error raised by `instance.exports.<name>` when the
  export is absent, `RunError.valueError` for `ValueError`s raised by
  `_memoryview_to_numpy_array` / numpy, and `RunError.decodeError` for
  failures of `json.loads` or of the dataclass constructors on output
  descriptors.
-/

/-- Scalar component types understood by `_memoryview_to_numpy_array`
(the members of `IntTypes` and `FloatTypes` that the function handles), plus
`other` for any tag outside that set (the function's final `else` branch
raises `ValueError` for those). -/
inductive ComponentType
  | uint8
  | int8
  | uint16
  | int16
  | uint32
  | int32
  | uint64
  | int64
  | float32
  | float64
  | other (tag : String)
  deriving DecidableEq

/-- Element size in bytes of each supported component type (the numpy dtype
item size). -/
def ComponentType.elementSize : ComponentType → Nat
  | .uint8 => 1
  | .int8 => 1
  | .uint16 => 2
  | .int16 => 2
  | .uint32 => 4
  | .int32 => 4
  | .uint64 => 8
  | .int64 => 8
  | .float32 => 4
  | .float64 => 8
  | .other _ => 0

/-- A numpy array as produced by `_memoryview_to_numpy_array`: the component
type together with the raw little-endian bytes it reinterprets.  (The typed
view of the bytes is not needed by any claim; the byte content and the dtype
determine it.) -/
structure TypedArray where
  componentType : ComponentType
  bytes : List Nat
  deriving DecidableEq

/-- `_memoryview_to_numpy_array(component_type, buf)`: dispatches on the
component type and calls `np.frombuffer`.  `np.frombuffer` raises
`ValueError` when the buffer length is not a multiple of the element size;
the final `else` of the Python function raises
`ValueError('Unsupported component type')`. -/
def memoryviewToNumpyArray (componentType : ComponentType) (buf : List Nat) :
    Except String TypedArray :=
  match componentType with
  | .other _ => .error "Unsupported component type"
  | ct =>
    if buf.length % ct.elementSize = 0 then .ok ⟨ct, buf⟩
    else .error "buffer size must be a multiple of element size"

/-- A host filesystem path, reduced to the two pieces the runtime looks at:
`str(path.parent)` and the file name. -/
structure PyPath where
  parent : String
  fileName : String
  deriving DecidableEq

/-- `ImageType` descriptor record (fields per the JSON protocol:
`dimension`, `componentType`, `pixelType`, `components`). -/
structure ImageType where
  dimension : Nat
  componentType : ComponentType
  pixelType : String
  components : Nat
  deriving DecidableEq

/-- `MeshType` record, restricted to the four component-type fields
`pipeline.py` reads (the dataclass has further fields the runtime never
touches). -/
structure MeshType where
  pointComponentType : ComponentType
  cellComponentType : ComponentType
  pointPixelComponentType : ComponentType
  cellPixelComponentType : ComponentType
  deriving DecidableEq

/-- `PolyDataType` record, restricted to the two component-type fields
`pipeline.py` reads. -/
structure PolyDataType where
  pointPixelComponentType : ComponentType
  cellPixelComponentType : ComponentType
  deriving DecidableEq

/-- An `Image` input value: descriptor fields plus the raw bytes of
`bytes(image.data.data)` and `bytes(image.direction.data)`. -/
structure ImageInput where
  imageType : ImageType
  name : String
  origin : List Rat
  spacing : List Rat
  size : List Nat
  data : List Nat
  direction : List Nat
  deriving DecidableEq

/-- A `Mesh` input value: descriptor fields plus the four raw sub-buffers. -/
structure MeshInput where
  meshType : MeshType
  name : String
  numberOfPoints : Nat
  points : List Nat
  numberOfCells : Nat
  cells : List Nat
  cellBufferSize : Nat
  numberOfPointPixels : Nat
  pointData : List Nat
  numberOfCellPixels : Nat
  cellData : List Nat
  deriving DecidableEq

/-- A `PolyData` input value: descriptor fields plus the seven raw
sub-buffers. -/
structure PolyDataInput where
  polyDataType : PolyDataType
  name : String
  numberOfPoints : Nat
  points : List Nat
  verticesBufferSize : Nat
  vertices : List Nat
  linesBufferSize : Nat
  lines : List Nat
  polygonsBufferSize : Nat
  polygons : List Nat
  triangleStripsBufferSize : Nat
  triangleStrips : List Nat
  numberOfPointPixels : Nat
  pointData : List Nat
  numberOfCellPixels : Nat
  cellData : List Nat
  deriving DecidableEq

/-- A `PipelineInput`: the interface kind together with its fully populated
payload.  `unsupported` stands for a member of the `InterfaceTypes`
enumeration beyond the seven the encode cascade handles (the cascade's final
`else` raises `ValueError` for those). -/
inductive PipelineInput
  | textStream (data : List Nat)
  | binaryStream (data : List Nat)
  | textFile (path : PyPath)
  | binaryFile (path : PyPath)
  | image (img : ImageInput)
  | mesh (m : MeshInput)
  | polyData (pd : PolyDataInput)
  | unsupported (tag : String)
  deriving DecidableEq

/-- A declared `PipelineOutput` slot: the caller supplies only the kind (plus
a target path for file kinds).  `jsonObject` — modelled from the spec: the
`InterfaceTypes` enumeration lives in `interface_types.py`, which is not part
of the sources here; this constructor stands for any enumeration member
beyond the seven kinds the decode cascade handles. -/
inductive PipelineOutputSpec
  | textStream
  | binaryStream
  | textFile (path : PyPath)
  | binaryFile (path : PyPath)
  | image
  | mesh
  | polyData
  | jsonObject
  deriving DecidableEq

/-- The JSON descriptor dict built for a stream input:
`{ "size": N, "data": <address-url> }`. -/
structure StreamJson where
  size : Nat
  data : String
  deriving DecidableEq

/-- The JSON descriptor dict built for an `Image` input (field order and
names as in `pipeline.py`). -/
structure ImageJson where
  imageType : ImageType
  name : String
  origin : List Rat
  spacing : List Rat
  direction : String
  size : List Nat
  data : String
  deriving DecidableEq

/-- The JSON descriptor dict built for a `Mesh` input. -/
structure MeshJson where
  meshType : MeshType
  name : String
  numberOfPoints : Nat
  points : String
  numberOfCells : Nat
  cells : String
  cellBufferSize : Nat
  numberOfPointPixels : Nat
  pointData : String
  numberOfCellPixels : Nat
  cellData : String
  deriving DecidableEq

/-- The JSON descriptor dict built for a `PolyData` input. -/
structure PolyDataJson where
  polyDataType : PolyDataType
  name : String
  numberOfPoints : Nat
  points : String
  verticesBufferSize : Nat
  vertices : String
  linesBufferSize : Nat
  lines : String
  polygonsBufferSize : Nat
  polygons : String
  triangleStripsBufferSize : Nat
  triangleStrips : String
  numberOfPointPixels : Nat
  pointData : String
  numberOfCellPixels : Nat
  cellData : String
  deriving DecidableEq

/-- The descriptor object passed to `_set_input_json`, tagged by kind. -/
inductive InputDesc
  | stream (j : StreamJson)
  | image (j : ImageJson)
  | mesh (j : MeshJson)
  | polyData (j : PolyDataJson)
  deriving DecidableEq

/-- One call from the host into the wasm guest, in the order the host makes
them.  `initCall` is the invocation of the guest's `_initialize` export.
The `inputJsonAlloc` event carries the descriptor being serialized in place
of its serialized byte length (the length is a function of the descriptor;
the exact `json.dumps` rendering of its float fields is not modelled). -/
inductive GuestCall
  | initCall
  | inputArrayAlloc (runId slot sub size ptr : Nat)
  | inputJsonAlloc (runId slot : Nat) (desc : InputDesc)
  | delayedStart
  | outputJsonAddress (runId slot : Nat)
  | outputJsonSize (runId slot : Nat)
  | outputArrayAddress (runId slot sub : Nat)
  | outputArraySize (runId slot sub : Nat)
  | delayedExit (code : Int)
  deriving DecidableEq

/-- Errors surfaced by a run (Python exceptions, see the header comment). -/
inductive RunError
  | missingExport (name : String)
  | valueError (msg : String)
  | decodeError (msg : String)
  deriving DecidableEq

/-- The parsed output descriptor for an `Image` slot: the result of
`json.loads` followed by `Image(**image_json)`, keeping the fields the
decoder reads afterwards.  (`direction` and `data` arrive as address-URL
strings and are unconditionally overwritten by the decoder, so they are
dropped here.) -/
structure ImageDesc where
  imageType : ImageType
  name : String
  origin : List Rat
  spacing : List Rat
  size : List Nat
  deriving DecidableEq

/-- The parsed output descriptor for a `Mesh` slot (`Mesh(**mesh_json)`).
All four buffer fields are unconditionally overwritten by the decoder and
are dropped here. -/
structure MeshDesc where
  meshType : MeshType
  name : String
  numberOfPoints : Nat
  numberOfCells : Nat
  cellBufferSize : Nat
  numberOfPointPixels : Nat
  numberOfCellPixels : Nat
  deriving DecidableEq

/-- The parsed output descriptor for a `PolyData` slot
(`PolyData(**polydata_json)`).  The seven buffer fields hold whatever values
the guest's JSON carried (address-URL strings); unlike `Image` and `Mesh`,
some of them survive into the decoded result, so they are kept. -/
structure PolyDataDesc where
  polyDataType : PolyDataType
  name : String
  numberOfPoints : Nat
  points : String
  verticesBufferSize : Nat
  vertices : String
  linesBufferSize : Nat
  lines : String
  polygonsBufferSize : Nat
  polygons : String
  triangleStripsBufferSize : Nat
  triangleStrips : String
  numberOfPointPixels : Nat
  pointData : String
  numberOfCellPixels : Nat
  cellData : String
  deriving DecidableEq

/-- A buffer-valued attribute of a decoded `PolyData`: either the value the
dataclass constructor received from the JSON descriptor (an address-URL
string) that was never overwritten, or a numpy array assigned by the
decoder. -/
inductive BufField
  | fromJson (s : String)
  | array (a : TypedArray)
  deriving DecidableEq

/-- A decoded `Image` output value. The direction buffer is kept as its raw
bytes; the decoder's `direction_array.shape = (dimension, dimension)`
assignment is modelled by the element-count check guarding it. -/
structure ImageOutput where
  imageType : ImageType
  name : String
  origin : List Rat
  spacing : List Rat
  size : List Nat
  data : TypedArray
  direction : TypedArray
  deriving DecidableEq

/-- A decoded `Mesh` output value. -/
structure MeshOutput where
  meshType : MeshType
  name : String
  numberOfPoints : Nat
  numberOfCells : Nat
  cellBufferSize : Nat
  numberOfPointPixels : Nat
  numberOfCellPixels : Nat
  points : TypedArray
  cells : TypedArray
  pointData : TypedArray
  cellData : TypedArray
  deriving DecidableEq

/-- A decoded `PolyData` output value. -/
structure PolyDataOutput where
  polyDataType : PolyDataType
  name : String
  numberOfPoints : Nat
  verticesBufferSize : Nat
  linesBufferSize : Nat
  polygonsBufferSize : Nat
  triangleStripsBufferSize : Nat
  numberOfPointPixels : Nat
  numberOfCellPixels : Nat
  points : BufField
  vertices : BufField
  lines : BufField
  polygons : BufField
  triangleStrips : BufField
  pointData : BufField
  cellData : BufField
  deriving DecidableEq

/-- A populated output value, as wrapped in `PipelineOutput(kind, value)` by
the decoder.  Text output data is kept as its UTF-8 byte sequence. -/
inductive DecodedOutput
  | textStream (data : List Nat)
  | binaryStream (data : List Nat)
  | textFile (path : PyPath)
  | binaryFile (path : PyPath)
  | image (img : ImageOutput)
  | mesh (m : MeshOutput)
  | polyData (pd : PolyDataOutput)
  deriving DecidableEq

/-- The wasm instance as seen by the host: which exports exist, what the
allocator/accessor exports return, the linear-memory content, the return
code of `itk_wasm_delayed_start`, and parsing oracles standing for
`json.loads` plus the per-kind dataclass constructor applied to the JSON
bytes the host reads out of linear memory. -/
structure Guest where
  hasMemory : Bool
  hasInputArrayAlloc : Bool
  hasInputJsonAlloc : Bool
  hasOutputArrayAddress : Bool
  hasOutputArraySize : Bool
  hasOutputJsonAddress : Bool
  hasOutputJsonSize : Bool
  hasInitExport : Bool
  hasDelayedStart : Bool
  hasDelayedExit : Bool
  memory : Nat → Nat
  inputArrayAlloc : Nat → Nat → Nat → Nat → Nat
  outputArrayAddress : Nat → Nat → Nat → Nat
  outputArraySize : Nat → Nat → Nat → Nat
  outputJsonAddress : Nat → Nat → Nat
  outputJsonSize : Nat → Nat → Nat
  delayedStartCode : Int
  parseImageJson : List Nat → Except String ImageDesc
  parseMeshJson : List Nat → Except String MeshDesc
  parsePolyDataJson : List Nat → Except String PolyDataDesc

/-- Everything `Pipeline.run` returns or observably builds: the finalized
preopen-directory list handed to the WASI state builder, the ordered trace
of guest calls, and either the populated output tuple or the exception that
aborted the run. -/
structure RunResult where
  preopenDirectories : List String
  trace : List GuestCall
  result : Except RunError (List (Option DecodedOutput))

/-- The address-URL the encoder embeds for a guest pointer:
`data:application/vnd.itk.address,0:<pointer-as-base10>` (the Python
f-string interpolation of the pointer). -/
def addressUrl (ptr : Nat) : String :=
  "data:application/vnd.itk.address,0:" ++ toString ptr

/-- `Pipeline._set_input_array`: when the byte buffer is not `None`, calls
`itk_wasm_input_array_alloc(0, input_index, sub_index, len(data_array))` and
writes the bytes at the returned pointer (the memory write itself is not
observable here); returns the pointer, or 0 without any guest call when the
buffer is `None`.  The emitted event also records the returned pointer. -/
def setInputArray (g : Guest) (dataArray : Option (List Nat))
    (inputIndex subIndex : Nat) : List GuestCall × Nat :=
  match dataArray with
  | none => ([], 0)
  | some d =>
    let ptr := g.inputArrayAlloc 0 inputIndex subIndex d.length
    ([GuestCall.inputArrayAlloc 0 inputIndex subIndex d.length ptr], ptr)

/-- `Pipeline._set_input_json`: serializes the descriptor, calls
`itk_wasm_input_json_alloc` and writes the JSON bytes.  Only the guest call
is observable; the event carries the descriptor (see `GuestCall`). -/
def setInputJson (desc : InputDesc) (inputIndex : Nat) : List GuestCall :=
  [GuestCall.inputJsonAlloc 0 inputIndex desc]

/-- The `TextStream` / `BinaryStream` arm of the input-encoding cascade:
`data_array` is the payload bytes (for text, `input_.data.data.encode()`). -/
def encodeStreamInput (g : Guest) (idx : Nat) (dataArray : List Nat) :
    List GuestCall × Except RunError (Option InputDesc) :=
  let (t0, arrayPtr) := setInputArray g (some dataArray) idx 0
  let dataJson : StreamJson := { size := dataArray.length, data := addressUrl arrayPtr }
  (t0 ++ setInputJson (.stream dataJson) idx, .ok (some (.stream dataJson)))

/-- The `Image` arm of the input-encoding cascade. -/
def encodeImageInput (g : Guest) (idx : Nat) (image : ImageInput) :
    List GuestCall × Except RunError (Option InputDesc) :=
  let (t0, dataPtr) := setInputArray g (some image.data) idx 0
  let (t1, directionPtr) := setInputArray g (some image.direction) idx 1
  let imageJson : ImageJson :=
    { imageType := image.imageType
      name := image.name
      origin := image.origin
      spacing := image.spacing
      direction := addressUrl directionPtr
      size := image.size
      data := addressUrl dataPtr }
  (t0 ++ t1 ++ setInputJson (.image imageJson) idx, .ok (some (.image imageJson)))

/-- The `Mesh` arm of the input-encoding cascade.  Each gate mirrors Python
truthiness (`if mesh.numberOfPoints:` etc.): a zero count substitutes
`bytes([])` for the sub-buffer, and `_set_input_array` is called either
way. -/
def encodeMeshInput (g : Guest) (idx : Nat) (mesh : MeshInput) :
    List GuestCall × Except RunError (Option InputDesc) :=
  let pv := if mesh.numberOfPoints ≠ 0 then mesh.points else []
  let (t0, pointsPtr) := setInputArray g (some pv) idx 0
  let cv := if mesh.numberOfCells ≠ 0 then mesh.cells else []
  let (t1, cellsPtr) := setInputArray g (some cv) idx 1
  let pdv := if mesh.numberOfPointPixels ≠ 0 then mesh.pointData else []
  let (t2, pointDataPtr) := setInputArray g (some pdv) idx 2
  let cdv := if mesh.numberOfCellPixels ≠ 0 then mesh.cellData else []
  let (t3, cellDataPtr) := setInputArray g (some cdv) idx 3
  let meshJson : MeshJson :=
    { meshType := mesh.meshType
      name := mesh.name
      numberOfPoints := mesh.numberOfPoints
      points := addressUrl pointsPtr
      numberOfCells := mesh.numberOfCells
      cells := addressUrl cellsPtr
      cellBufferSize := mesh.cellBufferSize
      numberOfPointPixels := mesh.numberOfPointPixels
      pointData := addressUrl pointDataPtr
      numberOfCellPixels := mesh.numberOfCellPixels
      cellData := addressUrl cellDataPtr }
  (t0 ++ t1 ++ t2 ++ t3 ++ setInputJson (.mesh meshJson) idx, .ok (some (.mesh meshJson)))

/-- The `PolyData` arm of the input-encoding cascade (seven sub-buffers,
each gated by Python truthiness of its count/buffer-size field). -/
def encodePolyDataInput (g : Guest) (idx : Nat) (polydata : PolyDataInput) :
    List GuestCall × Except RunError (Option InputDesc) :=
  let pv0 := if polydata.numberOfPoints ≠ 0 then polydata.points else []
  let (t0, pointsPtr) := setInputArray g (some pv0) idx 0
  let pv1 := if polydata.verticesBufferSize ≠ 0 then polydata.vertices else []
  let (t1, verticesPtr) := setInputArray g (some pv1) idx 1
  let pv2 := if polydata.linesBufferSize ≠ 0 then polydata.lines else []
  let (t2, linesPtr) := setInputArray g (some pv2) idx 2
  let pv3 := if polydata.polygonsBufferSize ≠ 0 then polydata.polygons else []
  let (t3, polygonsPtr) := setInputArray g (some pv3) idx 3
  let pv4 := if polydata.triangleStripsBufferSize ≠ 0 then polydata.triangleStrips else []
  let (t4, triangleStripsPtr) := setInputArray g (some pv4) idx 4
  let pv5 := if polydata.numberOfPointPixels ≠ 0 then polydata.pointData else []
  let (t5, pointDataPtr) := setInputArray g (some pv5) idx 5
  let pv6 := if polydata.numberOfCellPixels ≠ 0 then polydata.cellData else []
  let (t6, cellDataPtr) := setInputArray g (some pv6) idx 6
  let polydataJson : PolyDataJson :=
    { polyDataType := polydata.polyDataType
      name := polydata.name
      numberOfPoints := polydata.numberOfPoints
      points := addressUrl pointsPtr
      verticesBufferSize := polydata.verticesBufferSize
      vertices := addressUrl verticesPtr
      linesBufferSize := polydata.linesBufferSize
      lines := addressUrl linesPtr
      polygonsBufferSize := polydata.polygonsBufferSize
      polygons := addressUrl polygonsPtr
      triangleStripsBufferSize := polydata.triangleStripsBufferSize
      triangleStrips := addressUrl triangleStripsPtr
      numberOfPointPixels := polydata.numberOfPointPixels
      pointData := addressUrl pointDataPtr
      numberOfCellPixels := polydata.numberOfCellPixels
      cellData := addressUrl cellDataPtr }
  (t0 ++ t1 ++ t2 ++ t3 ++ t4 ++ t5 ++ t6 ++ setInputJson (.polyData polydataJson) idx,
   .ok (some (.polyData polydataJson)))

/-- The body of the input-encoding loop of `Pipeline.run` for one input:
dispatch on the interface kind.  File kinds do nothing (the guest accesses
the file through the preopened directory); an unexpected kind raises
`ValueError`. -/
def encodeInput (g : Guest) (idx : Nat) (inp : PipelineInput) :
    List GuestCall × Except RunError (Option InputDesc) :=
  match inp with
  | .textStream d => encodeStreamInput g idx d
  | .binaryStream d => encodeStreamInput g idx d
  | .textFile _ => ([], .ok none)
  | .binaryFile _ => ([], .ok none)
  | .image img => encodeImageInput g idx img
  | .mesh m => encodeMeshInput g idx m
  | .polyData pd => encodePolyDataInput g idx pd
  | .unsupported tag => ([], .error (.valueError ("Unexpected/not yet supported input.type " ++ tag)))

/-- The input-encoding loop of `Pipeline.run`: `for index, input_ in
enumerate(inputs)`, starting at `idx`. -/
def encodeAll (g : Guest) : Nat → List PipelineInput → List GuestCall × Except RunError Unit
  | _, [] => ([], .ok ())
  | idx, inp :: rest =>
    match encodeInput g idx inp with
    | (t, .error e) => (t, .error e)
    | (t, .ok _) =>
      match encodeAll g (idx + 1) rest with
      | (t', r) => (t ++ t', r)

/-- Read `len` bytes of guest linear memory starting at `ptr`
(`memoryview(self.memory.buffer)[ptr:ptr+len]`; the model's memory is a
total byte function, so the Python slice clamping at the end of the buffer
does not arise). -/
def readMem (mem : Nat → Nat) (ptr len : Nat) : List Nat :=
  (List.range len).map fun i => mem (ptr + i)

/-- Locate and read one output sub-buffer: call
`output_array_address(0, idx, sub)` and `output_array_size(0, idx, sub)`,
read the bytes and reinterpret them via `_memoryview_to_numpy_array`. -/
def readOutputArray (g : Guest) (idx sub : Nat) (ct : ComponentType) :
    List GuestCall × Except RunError TypedArray :=
  let ptr := g.outputArrayAddress 0 idx sub
  let size := g.outputArraySize 0 idx sub
  ([GuestCall.outputArrayAddress 0 idx sub, GuestCall.outputArraySize 0 idx sub],
   match memoryviewToNumpyArray ct (readMem g.memory ptr size) with
   | .ok a => .ok a
   | .error e => .error (.valueError e))

/-- One gated sub-buffer step of the `Mesh` / `PolyData` output decoders:
when the gating count is positive, call the accessors and read the buffer;
otherwise build `_memoryview_to_numpy_array(ct, bytes([]))` with no guest
call. -/
def decodeBufferStep (g : Guest) (idx sub : Nat) (gate : Prop) [Decidable gate]
    (ct : ComponentType) : List GuestCall × Except RunError TypedArray :=
  if gate then readOutputArray g idx sub ct
  else ([],
    match memoryviewToNumpyArray ct [] with
    | .ok a => .ok a
    | .error e => .error (.valueError e))

/-- `Pipeline._get_output_json`, up to parsing: call
`output_json_address(0, idx)` and `output_json_size(0, idx)` and read the
descriptor bytes out of linear memory. -/
def getOutputJsonBytes (g : Guest) (idx : Nat) : List GuestCall × List Nat :=
  let ptr := g.outputJsonAddress 0 idx
  let size := g.outputJsonSize 0 idx
  ([GuestCall.outputJsonAddress 0 idx, GuestCall.outputJsonSize 0 idx],
   readMem g.memory ptr size)

/-- The `TextStream` arm of the output-decoding cascade (sub-index 0; the
UTF-8 decode of the bytes is abstracted, see the header comment). -/
def decodeTextStreamOutput (g : Guest) (idx : Nat) :
    List GuestCall × Except RunError (Option DecodedOutput) :=
  let ptr := g.outputArrayAddress 0 idx 0
  let size := g.outputArraySize 0 idx 0
  ([GuestCall.outputArrayAddress 0 idx 0, GuestCall.outputArraySize 0 idx 0],
   .ok (some (.textStream (readMem g.memory ptr size))))

/-- The `BinaryStream` arm of the output-decoding cascade. -/
def decodeBinaryStreamOutput (g : Guest) (idx : Nat) :
    List GuestCall × Except RunError (Option DecodedOutput) :=
  let ptr := g.outputArrayAddress 0 idx 0
  let size := g.outputArraySize 0 idx 0
  ([GuestCall.outputArrayAddress 0 idx 0, GuestCall.outputArraySize 0 idx 0],
   .ok (some (.binaryStream (readMem g.memory ptr size))))

/-- The `Image` arm of the output-decoding cascade: read the descriptor,
read pixel data (sub 0) and direction (sub 1) unconditionally, then reshape
the direction to `(dimension, dimension)` — modelled by the element-count
check that numpy's shape assignment performs. -/
def decodeImageOutput (g : Guest) (idx : Nat) :
    List GuestCall × Except RunError (Option DecodedOutput) :=
  let oj := getOutputJsonBytes g idx
  match g.parseImageJson oj.2 with
  | .error e => (oj.1, .error (.decodeError e))
  | .ok desc =>
    let s0 := readOutputArray g idx 0 desc.imageType.componentType
    match s0.2 with
    | .error e => (oj.1 ++ s0.1, .error e)
    | .ok dataArray =>
      let s1 := readOutputArray g idx 1 ComponentType.float64
      match s1.2 with
      | .error e => (oj.1 ++ s0.1 ++ s1.1, .error e)
      | .ok directionArray =>
        if directionArray.bytes.length =
            8 * (desc.imageType.dimension * desc.imageType.dimension) then
          (oj.1 ++ s0.1 ++ s1.1,
           .ok (some (.image
             { imageType := desc.imageType
               name := desc.name
               origin := desc.origin
               spacing := desc.spacing
               size := desc.size
               data := dataArray
               direction := directionArray })))
        else (oj.1 ++ s0.1 ++ s1.1, .error (.valueError "cannot reshape array"))

/-- The `Mesh` arm of the output-decoding cascade: each of the four
sub-buffers is gated by its count being `> 0`, and in both branches the
result is assigned to the field whose count gates it. -/
def decodeMeshOutput (g : Guest) (idx : Nat) :
    List GuestCall × Except RunError (Option DecodedOutput) :=
  let oj := getOutputJsonBytes g idx
  match g.parseMeshJson oj.2 with
  | .error e => (oj.1, .error (.decodeError e))
  | .ok desc =>
    let s0 := decodeBufferStep g idx 0 (desc.numberOfPoints > 0)
      desc.meshType.pointComponentType
    match s0.2 with
    | .error e => (oj.1 ++ s0.1, .error e)
    | .ok points =>
      let s1 := decodeBufferStep g idx 1 (desc.numberOfCells > 0)
        desc.meshType.cellComponentType
      match s1.2 with
      | .error e => (oj.1 ++ s0.1 ++ s1.1, .error e)
      | .ok cells =>
        let s2 := decodeBufferStep g idx 2 (desc.numberOfPointPixels > 0)
          desc.meshType.pointPixelComponentType
        match s2.2 with
        | .error e => (oj.1 ++ s0.1 ++ s1.1 ++ s2.1, .error e)
        | .ok pointData =>
          let s3 := decodeBufferStep g idx 3 (desc.numberOfCellPixels > 0)
            desc.meshType.cellPixelComponentType
          match s3.2 with
          | .error e => (oj.1 ++ s0.1 ++ s1.1 ++ s2.1 ++ s3.1, .error e)
          | .ok cellData =>
            (oj.1 ++ s0.1 ++ s1.1 ++ s2.1 ++ s3.1,
             .ok (some (.mesh
               { meshType := desc.meshType
                 name := desc.name
                 numberOfPoints := desc.numberOfPoints
                 numberOfCells := desc.numberOfCells
                 cellBufferSize := desc.cellBufferSize
                 numberOfPointPixels := desc.numberOfPointPixels
                 numberOfCellPixels := desc.numberOfCellPixels
                 points := points
                 cells := cells
                 pointData := pointData
                 cellData := cellData })))

/-- The `PolyData` arm of the output-decoding cascade.  NOTE (mirrors the
source exactly): in the `numberOfPointPixels == 0` and
`numberOfCellPixels == 0` branches the source assigns the zero-length array
to `polydata.triangleStrips` instead of to `polydata.pointData` /
`polydata.cellData`, so those two fields keep the value the dataclass
constructor received from the JSON descriptor. -/
def decodePolyDataOutput (g : Guest) (idx : Nat) :
    List GuestCall × Except RunError (Option DecodedOutput) :=
  let oj := getOutputJsonBytes g idx
  match g.parsePolyDataJson oj.2 with
  | .error e => (oj.1, .error (.decodeError e))
  | .ok desc =>
    let pd0 : PolyDataOutput :=
      { polyDataType := desc.polyDataType
        name := desc.name
        numberOfPoints := desc.numberOfPoints
        verticesBufferSize := desc.verticesBufferSize
        linesBufferSize := desc.linesBufferSize
        polygonsBufferSize := desc.polygonsBufferSize
        triangleStripsBufferSize := desc.triangleStripsBufferSize
        numberOfPointPixels := desc.numberOfPointPixels
        numberOfCellPixels := desc.numberOfCellPixels
        points := .fromJson desc.points
        vertices := .fromJson desc.vertices
        lines := .fromJson desc.lines
        polygons := .fromJson desc.polygons
        triangleStrips := .fromJson desc.triangleStrips
        pointData := .fromJson desc.pointData
        cellData := .fromJson desc.cellData }
    let s0 := decodeBufferStep g idx 0 (desc.numberOfPoints > 0) ComponentType.float32
    match s0.2 with
    | .error e => (oj.1 ++ s0.1, .error e)
    | .ok a0 =>
      let pd1 := { pd0 with points := BufField.array a0 }
      let s1 := decodeBufferStep g idx 1 (desc.verticesBufferSize > 0) ComponentType.uint32
      match s1.2 with
      | .error e => (oj.1 ++ s0.1 ++ s1.1, .error e)
      | .ok a1 =>
        let pd2 := { pd1 with vertices := BufField.array a1 }
        let s2 := decodeBufferStep g idx 2 (desc.linesBufferSize > 0) ComponentType.uint32
        match s2.2 with
        | .error e => (oj.1 ++ s0.1 ++ s1.1 ++ s2.1, .error e)
        | .ok a2 =>
          let pd3 := { pd2 with lines := BufField.array a2 }
          let s3 := decodeBufferStep g idx 3 (desc.polygonsBufferSize > 0) ComponentType.uint32
          match s3.2 with
          | .error e => (oj.1 ++ s0.1 ++ s1.1 ++ s2.1 ++ s3.1, .error e)
          | .ok a3 =>
            let pd4 := { pd3 with polygons := BufField.array a3 }
            let s4 := decodeBufferStep g idx 4 (desc.triangleStripsBufferSize > 0)
              ComponentType.uint32
            match s4.2 with
            | .error e => (oj.1 ++ s0.1 ++ s1.1 ++ s2.1 ++ s3.1 ++ s4.1, .error e)
            | .ok a4 =>
              let pd5 := { pd4 with triangleStrips := BufField.array a4 }
              let s5 := decodeBufferStep g idx 5 (desc.numberOfPointPixels > 0)
                desc.polyDataType.pointPixelComponentType
              match s5.2 with
              | .error e => (oj.1 ++ s0.1 ++ s1.1 ++ s2.1 ++ s3.1 ++ s4.1 ++ s5.1, .error e)
              | .ok a5 =>
                let pd6 :=
                  if desc.numberOfPointPixels > 0 then
                    { pd5 with pointData := BufField.array a5 }
                  else
                    { pd5 with triangleStrips := BufField.array a5 }
                let s6 := decodeBufferStep g idx 6 (desc.numberOfCellPixels > 0)
                  desc.polyDataType.cellPixelComponentType
                match s6.2 with
                | .error e =>
                  (oj.1 ++ s0.1 ++ s1.1 ++ s2.1 ++ s3.1 ++ s4.1 ++ s5.1 ++ s6.1, .error e)
                | .ok a6 =>
                  let pd7 :=
                    if desc.numberOfCellPixels > 0 then
                      { pd6 with cellData := BufField.array a6 }
                    else
                      { pd6 with triangleStrips := BufField.array a6 }
                  (oj.1 ++ s0.1 ++ s1.1 ++ s2.1 ++ s3.1 ++ s4.1 ++ s5.1 ++ s6.1,
                   .ok (some (.polyData pd7)))

/-- The body of the output-decoding loop of `Pipeline.run` for one declared
output slot: `output_data` starts as `None` and the cascade has no final
`else`, so a kind it does not handle falls through and yields `None`. -/
def decodeOutput (g : Guest) (idx : Nat) (o : PipelineOutputSpec) :
    List GuestCall × Except RunError (Option DecodedOutput) :=
  match o with
  | .textStream => decodeTextStreamOutput g idx
  | .binaryStream => decodeBinaryStreamOutput g idx
  | .textFile path => ([], .ok (some (.textFile path)))
  | .binaryFile path => ([], .ok (some (.binaryFile path)))
  | .image => decodeImageOutput g idx
  | .mesh => decodeMeshOutput g idx
  | .polyData => decodePolyDataOutput g idx
  | .jsonObject => ([], .ok none)

/-- The output-decoding loop of `Pipeline.run`: populate the outputs in
declared order, starting at `idx`. -/
def decodeAll (g : Guest) :
    Nat → List PipelineOutputSpec → List GuestCall × Except RunError (List (Option DecodedOutput))
  | _, [] => ([], .ok [])
  | idx, o :: rest =>
    match decodeOutput g idx o with
    | (t, .error e) => (t, .error e)
    | (t, .ok d) =>
      match decodeAll g (idx + 1) rest with
      | (t', .error e) => (t ++ t', .error e)
      | (t', .ok ds) => (t ++ t', .ok (d :: ds))

/-- Insert a path into the preopen collection unless already present
(Python's `set.add`, with the set modelled as a duplicate-free list in
insertion order; the arbitrary iteration order of a Python `set` is
abstracted). -/
def insertDedup (l : List String) (s : String) : List String :=
  if s ∈ l then l else l ++ [s]

/-- Preopen contribution of one input: `TextFile` / `BinaryFile` inputs add
`str(input_.data.path.parent)`. -/
def preopenStepInput (acc : List String) (inp : PipelineInput) : List String :=
  match inp with
  | .textFile p => insertDedup acc p.parent
  | .binaryFile p => insertDedup acc p.parent
  | _ => acc

/-- Preopen contribution of one output slot: `TextFile` / `BinaryFile`
outputs add `str(output.data.path.parent)`. -/
def preopenStepOutput (acc : List String) (o : PipelineOutputSpec) : List String :=
  match o with
  | .textFile p => insertDedup acc p.parent
  | .binaryFile p => insertDedup acc p.parent
  | _ => acc

/-- The preopen-directory list built at the top of `Pipeline.run`: the file
kinds among the inputs, then among the outputs, contribute their parent
directories to a set, which is then turned into a list. -/
def preopenDirs (inputs : List PipelineInput) (outputs : List PipelineOutputSpec) :
    List String :=
  outputs.foldl preopenStepOutput (inputs.foldl preopenStepInput [])

/-- The export resolution performed right after instantiation
(`self.memory = instance.exports.memory` and the six allocator/accessor
exports, in source order): the first absent export raises. -/
def resolveExports (g : Guest) : Except RunError Unit :=
  if ¬ g.hasMemory then .error (.missingExport "memory")
  else if ¬ g.hasInputArrayAlloc then .error (.missingExport "itk_wasm_input_array_alloc")
  else if ¬ g.hasInputJsonAlloc then .error (.missingExport "itk_wasm_input_json_alloc")
  else if ¬ g.hasOutputArrayAddress then .error (.missingExport "itk_wasm_output_array_address")
  else if ¬ g.hasOutputArraySize then .error (.missingExport "itk_wasm_output_array_size")
  else if ¬ g.hasOutputJsonAddress then .error (.missingExport "itk_wasm_output_json_address")
  else if ¬ g.hasOutputJsonSize then .error (.missingExport "itk_wasm_output_json_size")
  else .ok ()

/-- `Pipeline.run`: build the preopen list, instantiate and resolve the
seven eagerly-bound exports, resolve and invoke `_initialize`, encode the
inputs in order, resolve and invoke `itk_wasm_delayed_start`, decode the
outputs when there are declared outputs and the return code is zero, then
resolve and invoke `itk_wasm_delayed_exit(return_code)` and return the
populated outputs.  `args` goes into the WASI state (not observable here).
There is no Python `try`/`finally` in the source: an exception anywhere
propagates immediately, skipping everything after it. -/
def Pipeline.run (g : Guest) (args : List String) (outputs : List PipelineOutputSpec)
    (inputs : List PipelineInput) : RunResult :=
  let preopens := preopenDirs inputs outputs
  match resolveExports g with
  | .error e => { preopenDirectories := preopens, trace := [], result := .error e }
  | .ok _ =>
    if g.hasInitExport then
      match encodeAll g 0 inputs with
      | (tE, .error e) =>
        { preopenDirectories := preopens
          trace := GuestCall.initCall :: tE
          result := .error e }
      | (tE, .ok _) =>
        if g.hasDelayedStart then
          let returnCode := g.delayedStartCode
          match (if outputs.length ≠ 0 ∧ returnCode = 0 then decodeAll g 0 outputs
                 else ([], .ok [])) with
          | (tD, .error e) =>
            { preopenDirectories := preopens
              trace := GuestCall.initCall :: (tE ++ (GuestCall.delayedStart :: tD))
              result := .error e }
          | (tD, .ok populatedOutputs) =>
            if g.hasDelayedExit then
              { preopenDirectories := preopens
                trace := GuestCall.initCall ::
                  (tE ++ (GuestCall.delayedStart :: (tD ++ [GuestCall.delayedExit returnCode])))
                result := .ok populatedOutputs }
            else
              { preopenDirectories := preopens
                trace := GuestCall.initCall :: (tE ++ (GuestCall.delayedStart :: tD))
                result := .error (.missingExport "itk_wasm_delayed_exit") }
        else
          { preopenDirectories := preopens
            trace := GuestCall.initCall :: tE
            result := .error (.missingExport "itk_wasm_delayed_start") }
    else
      { preopenDirectories := preopens, trace := [], result := .error (.missingExport "_initialize") }

/-- A Python runtime value, as far as needed to state what the default of a
keyword parameter of the generated wrapper stub is. -/
inductive PyValue
  | pyList (xs : List Int)
  | pyDict (entries : List (String × Int))
  deriving DecidableEq

/-- Is the value a Python `list`? -/
def PyValue.isPyList : PyValue → Bool
  | .pyList _ => true
  | .pyDict _ => false

/-- The keyword-parameter defaults in the signature of
`downsample_label_image_async` (from
`itkwasm_downsample/downsample_label_image_async.py`): the stub declares
`shrink_factors: List[int] = []` and `crop_radius: List[int] = {}` — the
literal `{}` is an empty `dict`, not a `list`. -/
structure DownsampleLabelImageAsyncDefaults where
  shrink_factors : PyValue
  crop_radius : PyValue
  deriving DecidableEq

/-- The defaults exactly as written in the source. -/
def downsampleLabelImageAsyncDefaults : DownsampleLabelImageAsyncDefaults :=
  { shrink_factors := .pyList []
    crop_radius := .pyDict [] }

/-- Is this event a call to one of the input-side allocators? -/
def GuestCall.isInputPhase : GuestCall → Bool
  | .inputArrayAlloc _ _ _ _ _ => true
  | .inputJsonAlloc _ _ _ => true
  | _ => false

/-- Is this event a call to one of the output-side accessors? -/
def GuestCall.isOutputPhase : GuestCall → Bool
  | .outputJsonAddress _ _ => true
  | .outputJsonSize _ _ => true
  | .outputArrayAddress _ _ _ => true
  | .outputArraySize _ _ _ => true
  | _ => false

/-- Is this event the `itk_wasm_delayed_start` invocation? -/
def GuestCall.isDelayedStartEv : GuestCall → Bool
  | .delayedStart => true
  | _ => false

/-- Is this event an `itk_wasm_delayed_exit` invocation? -/
def GuestCall.isDelayedExitEv : GuestCall → Bool
  | .delayedExit _ => true
  | _ => false

/-- Is this event an `itk_wasm_input_array_alloc` call for sub-index `k`? -/
def GuestCall.isInputArrayAllocSub : GuestCall → Nat → Bool
  | .inputArrayAlloc _ _ sub _ _, k => sub == k
  | _, _ => false

/-- Glue: a pointwise property over an append from properties over the
parts. -/
theorem appendForall {α : Type} {p : α → Prop} {l1 l2 : List α}
    (h1 : ∀ c ∈ l1, p c) (h2 : ∀ c ∈ l2, p c) : ∀ c ∈ l1 ++ l2, p c :=
  fun c hc => (List.mem_append.mp hc).elim (h1 c) (h2 c)

/-- Every event emitted while encoding one input is an input-side allocator
call. -/
theorem encodeInput_input_phase (g : Guest) (idx : Nat) (inp : PipelineInput) :
    ∀ c ∈ (encodeInput g idx inp).1, c.isInputPhase = true := by
  cases inp <;>
    simp [encodeInput, encodeStreamInput, encodeImageInput, encodeMeshInput,
      encodePolyDataInput, setInputArray, setInputJson, GuestCall.isInputPhase,
      List.forall_mem_cons]

/-- Every event emitted by the input-encoding loop is an input-side
allocator call. -/
theorem encodeAll_input_phase (g : Guest) :
    ∀ (inputs : List PipelineInput) (k : Nat), ∀ c ∈ (encodeAll g k inputs).1, c.isInputPhase = true := by
  intro inputs
  induction inputs with
  | nil => intro k; simp [encodeAll]
  | cons inp rest ih =>
    intro k
    have hhd := encodeInput_input_phase g k inp
    unfold encodeAll
    rcases hE : encodeInput g k inp with ⟨t, r⟩
    rw [hE] at hhd
    cases r with
    | error e => simpa using hhd
    | ok v =>
      rcases hR : encodeAll g (k + 1) rest with ⟨t', r'⟩
      have htl := ih (k + 1)
      rw [hR] at htl
      simpa using appendForall hhd htl

/-- Every event emitted by `readOutputArray` is an output-side accessor
call. -/
theorem readOutputArray_output_phase (g : Guest) (idx sub : Nat) (ct : ComponentType) :
    ∀ c ∈ (readOutputArray g idx sub ct).1, c.isOutputPhase = true := by
  simp [readOutputArray, GuestCall.isOutputPhase, List.forall_mem_cons]

/-- Every event emitted by a gated sub-buffer step is an output-side
accessor call. -/
theorem decodeBufferStep_output_phase (g : Guest) (idx sub : Nat) (gate : Prop)
    [Decidable gate] (ct : ComponentType) :
    ∀ c ∈ (decodeBufferStep g idx sub gate ct).1, c.isOutputPhase = true := by
  unfold decodeBufferStep
  split
  · exact readOutputArray_output_phase g idx sub ct
  · simp

/-- Every event emitted while decoding one output slot is an output-side
accessor call. -/
theorem decodeOutput_output_phase (g : Guest) (idx : Nat) (o : PipelineOutputSpec) :
    ∀ c ∈ (decodeOutput g idx o).1, c.isOutputPhase = true := by
  have hj : ∀ c ∈ (getOutputJsonBytes g idx).1, c.isOutputPhase = true := by
    simp [getOutputJsonBytes, GuestCall.isOutputPhase, List.forall_mem_cons]
  cases o with
  | textStream =>
    simp [decodeOutput, decodeTextStreamOutput, GuestCall.isOutputPhase, List.forall_mem_cons]
  | binaryStream =>
    simp [decodeOutput, decodeBinaryStreamOutput, GuestCall.isOutputPhase, List.forall_mem_cons]
  | textFile path => simp [decodeOutput]
  | binaryFile path => simp [decodeOutput]
  | jsonObject => simp [decodeOutput]
  | image =>
    show ∀ c ∈ (decodeImageOutput g idx).1, c.isOutputPhase = true
    have h0 := fun ct => readOutputArray_output_phase g idx 0 ct
    have h1 := readOutputArray_output_phase g idx 1 ComponentType.float64
    simp only [decodeImageOutput]
    rcases hp : g.parseImageJson (getOutputJsonBytes g idx).2 with e | desc
    · simpa [hp] using hj
    · simp only [hp]
      rcases h0e : (readOutputArray g idx 0 desc.imageType.componentType).2 with e | dataArray
      · simpa [h0e] using appendForall hj (h0 _)
      · simp only [h0e]
        rcases h1e : (readOutputArray g idx 1 ComponentType.float64).2 with e | directionArray
        · simpa [h1e] using appendForall (appendForall hj (h0 _)) h1
        · simp only [h1e]
          split <;> simpa using appendForall (appendForall hj (h0 _)) h1
  | mesh =>
    show ∀ c ∈ (decodeMeshOutput g idx).1, c.isOutputPhase = true
    simp only [decodeMeshOutput]
    rcases hp : g.parseMeshJson (getOutputJsonBytes g idx).2 with e | desc
    · simpa [hp] using hj
    · simp only [hp]
      have h0 := decodeBufferStep_output_phase g idx 0 (desc.numberOfPoints > 0)
        desc.meshType.pointComponentType
      rcases h0e : (decodeBufferStep g idx 0 (desc.numberOfPoints > 0)
          desc.meshType.pointComponentType).2 with e | points
      · simpa [h0e] using appendForall hj h0
      · simp only [h0e]
        have h1 := decodeBufferStep_output_phase g idx 1 (desc.numberOfCells > 0)
          desc.meshType.cellComponentType
        rcases h1e : (decodeBufferStep g idx 1 (desc.numberOfCells > 0)
            desc.meshType.cellComponentType).2 with e | cells
        · simpa [h1e] using appendForall (appendForall hj h0) h1
        · simp only [h1e]
          have h2 := decodeBufferStep_output_phase g idx 2 (desc.numberOfPointPixels > 0)
            desc.meshType.pointPixelComponentType
          rcases h2e : (decodeBufferStep g idx 2 (desc.numberOfPointPixels > 0)
              desc.meshType.pointPixelComponentType).2 with e | pointData
          · simpa [h2e] using appendForall (appendForall (appendForall hj h0) h1) h2
          · simp only [h2e]
            have h3 := decodeBufferStep_output_phase g idx 3 (desc.numberOfCellPixels > 0)
              desc.meshType.cellPixelComponentType
            rcases h3e : (decodeBufferStep g idx 3 (desc.numberOfCellPixels > 0)
                desc.meshType.cellPixelComponentType).2 with e | cellData <;>
              simpa [h3e] using
                appendForall (appendForall (appendForall (appendForall hj h0) h1) h2) h3
  | polyData =>
    show ∀ c ∈ (decodePolyDataOutput g idx).1, c.isOutputPhase = true
    simp only [decodePolyDataOutput]
    rcases hp : g.parsePolyDataJson (getOutputJsonBytes g idx).2 with e | desc
    · simpa [hp] using hj
    · simp only [hp]
      have h0 := decodeBufferStep_output_phase g idx 0 (desc.numberOfPoints > 0)
        ComponentType.float32
      rcases h0e : (decodeBufferStep g idx 0 (desc.numberOfPoints > 0)
          ComponentType.float32).2 with e | a0
      · simpa [h0e] using appendForall hj h0
      · simp only [h0e]
        have h1 := decodeBufferStep_output_phase g idx 1 (desc.verticesBufferSize > 0)
          ComponentType.uint32
        rcases h1e : (decodeBufferStep g idx 1 (desc.verticesBufferSize > 0)
            ComponentType.uint32).2 with e | a1
        · simpa [h1e] using appendForall (appendForall hj h0) h1
        · simp only [h1e]
          have h2 := decodeBufferStep_output_phase g idx 2 (desc.linesBufferSize > 0)
            ComponentType.uint32
          rcases h2e : (decodeBufferStep g idx 2 (desc.linesBufferSize > 0)
              ComponentType.uint32).2 with e | a2
          · simpa [h2e] using appendForall (appendForall (appendForall hj h0) h1) h2
          · simp only [h2e]
            have h3 := decodeBufferStep_output_phase g idx 3 (desc.polygonsBufferSize > 0)
              ComponentType.uint32
            rcases h3e : (decodeBufferStep g idx 3 (desc.polygonsBufferSize > 0)
                ComponentType.uint32).2 with e | a3
            · simpa [h3e] using
                appendForall (appendForall (appendForall (appendForall hj h0) h1) h2) h3
            · simp only [h3e]
              have h4 := decodeBufferStep_output_phase g idx 4
                (desc.triangleStripsBufferSize > 0) ComponentType.uint32
              rcases h4e : (decodeBufferStep g idx 4 (desc.triangleStripsBufferSize > 0)
                  ComponentType.uint32).2 with e | a4
              · simpa [h4e] using appendForall (appendForall (appendForall (appendForall
                  (appendForall hj h0) h1) h2) h3) h4
              · simp only [h4e]
                have h5 := decodeBufferStep_output_phase g idx 5
                  (desc.numberOfPointPixels > 0) desc.polyDataType.pointPixelComponentType
                rcases h5e : (decodeBufferStep g idx 5 (desc.numberOfPointPixels > 0)
                    desc.polyDataType.pointPixelComponentType).2 with e | a5
                · simpa [h5e] using appendForall (appendForall (appendForall (appendForall
                    (appendForall (appendForall hj h0) h1) h2) h3) h4) h5
                · simp only [h5e]
                  have h6 := decodeBufferStep_output_phase g idx 6
                    (desc.numberOfCellPixels > 0) desc.polyDataType.cellPixelComponentType
                  rcases h6e : (decodeBufferStep g idx 6 (desc.numberOfCellPixels > 0)
                      desc.polyDataType.cellPixelComponentType).2 with e | a6 <;>
                    simpa [h6e] using appendForall (appendForall (appendForall (appendForall
                      (appendForall (appendForall (appendForall hj h0) h1) h2) h3) h4) h5) h6


/-- Every event emitted by the output-decoding loop is an output-side
accessor call. -/
theorem decodeAll_output_phase (g : Guest) :
    ∀ (outputs : List PipelineOutputSpec) (k : Nat),
      ∀ c ∈ (decodeAll g k outputs).1, c.isOutputPhase = true := by
  intro outputs
  induction outputs with
  | nil => intro k; simp [decodeAll]
  | cons o rest ih =>
    intro k
    have hhd := decodeOutput_output_phase g k o
    unfold decodeAll
    rcases hO : decodeOutput g k o with ⟨t, r⟩
    rw [hO] at hhd
    cases r with
    | error e => simpa using hhd
    | ok d =>
      have htl := ih (k + 1)
      rcases hR : decodeAll g (k + 1) rest with ⟨t', r'⟩
      rw [hR] at htl
      cases r' <;> simpa using appendForall hhd htl

/-- Input-phase events are none of the other event classes. -/
theorem isInputPhase_excl (c : GuestCall) (h : c.isInputPhase = true) :
    c.isOutputPhase = false ∧ c.isDelayedStartEv = false ∧ c.isDelayedExitEv = false := by
  cases c <;> simp_all [GuestCall.isInputPhase, GuestCall.isOutputPhase,
    GuestCall.isDelayedStartEv, GuestCall.isDelayedExitEv]

/-- Output-phase events are none of the other event classes. -/
theorem isOutputPhase_excl (c : GuestCall) (h : c.isOutputPhase = true) :
    c.isInputPhase = false ∧ c.isDelayedStartEv = false ∧ c.isDelayedExitEv = false := by
  cases c <;> simp_all [GuestCall.isInputPhase, GuestCall.isOutputPhase,
    GuestCall.isDelayedStartEv, GuestCall.isDelayedExitEv]

/-- A list whose members all satisfy `p` has no members satisfying a class
disjoint from `p`. -/
theorem countP_zero_of_forall {q : GuestCall → Bool} {l : List GuestCall}
    (h : ∀ c ∈ l, q c = false) : l.countP (fun c => q c) = 0 := by
  refine List.countP_eq_zero.mpr ?_
  intro a ha
  simp [h a ha]

/-- The preopen-directory list returned by `Pipeline.run` is the one computed
by `preopenDirs` (every branch of the run returns it unchanged). -/
theorem run_preopen (g : Guest) (args : List String) (outputs : List PipelineOutputSpec)
    (inputs : List PipelineInput) :
    (Pipeline.run g args outputs inputs).preopenDirectories = preopenDirs inputs outputs := by
  unfold Pipeline.run
  rcases hR : resolveExports g with e | u
  · rfl
  · by_cases hI : g.hasInitExport
    · simp only [hI, if_true]
      rcases hE : encodeAll g 0 inputs with ⟨tE, rE⟩
      rcases rE with e | u'
      · rfl
      · by_cases hS : g.hasDelayedStart
        · simp only [hS, if_true]
          rcases hD : (if outputs.length ≠ 0 ∧ g.delayedStartCode = 0 then decodeAll g 0 outputs
                       else ([], .ok [])) with ⟨tD, rD⟩
          rcases rD with e | outs'
          · rfl
          · by_cases hX : g.hasDelayedExit
            · simp [hX]
            · simp [hX]
        · simp [hS]
    · simp [hI]

/-- Success-shape inversion for `Pipeline.run`: a run that returns `.ok`
resolved all exports, encoded all inputs, ran `delayed_start`, decoded (or
skipped decoding), and closed with `delayed_exit`, and its trace is exactly
the concatenation of those phases. -/
theorem run_ok_shape (g : Guest) (args : List String) (outputs : List PipelineOutputSpec)
    (inputs : List PipelineInput) (outs : List (Option DecodedOutput))
    (h : (Pipeline.run g args outputs inputs).result = .ok outs) :
    ∃ tE tD,
      encodeAll g 0 inputs = (tE, .ok ()) ∧
      (if outputs.length ≠ 0 ∧ g.delayedStartCode = 0 then decodeAll g 0 outputs
       else ([], .ok [])) = (tD, .ok outs) ∧
      Pipeline.run g args outputs inputs =
        { preopenDirectories := preopenDirs inputs outputs
          trace := GuestCall.initCall :: (tE ++ (GuestCall.delayedStart ::
            (tD ++ [GuestCall.delayedExit g.delayedStartCode])))
          result := .ok outs } := by
  unfold Pipeline.run at h ⊢
  rcases hR : resolveExports g with e | u
  · rw [hR] at h; simp at h
  · rw [hR] at h
    by_cases hI : g.hasInitExport
    · simp only [hI, if_true] at h ⊢
      rcases hE : encodeAll g 0 inputs with ⟨tE, rE⟩
      rw [hE] at h
      rcases rE with e | u'
      · simp at h
      · cases u'
        by_cases hS : g.hasDelayedStart
        · simp only [hS, if_true] at h ⊢
          rcases hD : (if outputs.length ≠ 0 ∧ g.delayedStartCode = 0 then decodeAll g 0 outputs
                       else ([], .ok [])) with ⟨tD, rD⟩
          rw [hD] at h
          rcases rD with e | outs'
          · simp at h
          · by_cases hX : g.hasDelayedExit
            · simp only [hX, if_true] at h ⊢
              simp only [Except.ok.injEq] at h
              subst h
              exact ⟨tE, tD, rfl, rfl, rfl⟩
            · simp [hX] at h
        · simp [hS] at h
    · simp [hI] at h

/-- Error-shape inversion for `Pipeline.run`: a run that raises leaves a
trace that stops before `_initialize`, after encoding, or after
`delayed_start` — never containing a `delayed_exit` event. -/
theorem run_error_shape (g : Guest) (args : List String) (outputs : List PipelineOutputSpec)
    (inputs : List PipelineInput) (e : RunError)
    (h : (Pipeline.run g args outputs inputs).result = .error e) :
    (Pipeline.run g args outputs inputs).trace = [] ∨
    (∃ tE, (∀ c ∈ tE, c.isInputPhase = true) ∧
      ((Pipeline.run g args outputs inputs).trace = GuestCall.initCall :: tE ∨
       ∃ tD, (∀ c ∈ tD, c.isOutputPhase = true) ∧
         (Pipeline.run g args outputs inputs).trace =
           GuestCall.initCall :: (tE ++ (GuestCall.delayedStart :: tD)))) := by
  unfold Pipeline.run at h ⊢
  rcases hR : resolveExports g with e' | u
  · left; rfl
  · rw [hR] at h
    by_cases hI : g.hasInitExport
    · simp only [hI, if_true] at h ⊢
      rcases hE : encodeAll g 0 inputs with ⟨tE, rE⟩
      rw [hE] at h
      have htE : ∀ c ∈ tE, c.isInputPhase = true := by
        have h' := encodeAll_input_phase g inputs 0
        rw [hE] at h'
        exact h'
      rcases rE with e' | u'
      · right; exact ⟨tE, htE, Or.inl rfl⟩
      · cases u'
        by_cases hS : g.hasDelayedStart
        · simp only [hS, if_true] at h ⊢
          rcases hD : (if outputs.length ≠ 0 ∧ g.delayedStartCode = 0 then decodeAll g 0 outputs
                       else ([], .ok [])) with ⟨tD, rD⟩
          rw [hD] at h
          have htD : ∀ c ∈ tD, c.isOutputPhase = true := by
            have h' : ∀ c ∈ (if outputs.length ≠ 0 ∧ g.delayedStartCode = 0
                then decodeAll g 0 outputs else ([], .ok [])).1, c.isOutputPhase = true := by
              split
              · exact decodeAll_output_phase g outputs 0
              · intro c hc; simp at hc
            rw [hD] at h'
            exact h'
          rcases rD with e' | outs'
          · right; exact ⟨tE, htE, Or.inr ⟨tD, htD, rfl⟩⟩
          · by_cases hX : g.hasDelayedExit
            · simp [hX] at h
            · right; exact ⟨tE, htE, Or.inr ⟨tD, htD, by simp [hX]⟩⟩
        · right; exact ⟨tE, htE, Or.inl (by simp [hS])⟩
    · left; simp [hI]

/-- Decoding a declared output list maps every `jsonObject` slot to `none`
(the cascade falls through and appends the initial `None`). -/
theorem decodeAll_jsonObject_none (g : Guest) :
    ∀ (os : List PipelineOutputSpec) (k : Nat) (t : List GuestCall)
      (ds : List (Option DecodedOutput)),
      decodeAll g k os = (t, .ok ds) →
      ∀ i : Nat, os[i]? = some PipelineOutputSpec.jsonObject →
        ds[i]? = some (none : Option DecodedOutput) := by
  intro os
  induction os with
  | nil => intro k t ds h i hi; simp at hi
  | cons o rest ih =>
    intro k t ds h i hi
    unfold decodeAll at h
    rcases hO : decodeOutput g k o with ⟨t0, r0⟩
    rw [hO] at h
    rcases r0 with e | d
    · simp at h
    · rcases hR : decodeAll g (k + 1) rest with ⟨t1, r1⟩
      rw [hR] at h
      rcases r1 with e | ds'
      · simp at h
      · simp only [Prod.mk.injEq, Except.ok.injEq] at h
        obtain ⟨ht, hds⟩ := h
        subst hds
        cases i with
        | zero =>
          simp only [List.getElem?_cons_zero, Option.some.injEq] at hi
          subst hi
          rw [show decodeOutput g k PipelineOutputSpec.jsonObject = ([], Except.ok none)
            from rfl] at hO
          simp only [Prod.mk.injEq, Except.ok.injEq] at hO
          obtain ⟨-, hd⟩ := hO
          subst hd
          simp
        | succ n =>
          simp only [List.getElem?_cons_succ] at hi ⊢
          exact ih (k + 1) t1 ds' hR n hi

/-- A simple fully-exporting guest used to exercise the runtime at concrete
inputs: allocators return small distinct pointers, memory is all zeroes, the
return code is 0 and output descriptors fail to parse. -/
def gBase : Guest :=
  { hasMemory := true
    hasInputArrayAlloc := true
    hasInputJsonAlloc := true
    hasOutputArrayAddress := true
    hasOutputArraySize := true
    hasOutputJsonAddress := true
    hasOutputJsonSize := true
    hasInitExport := true
    hasDelayedStart := true
    hasDelayedExit := true
    memory := fun _ => 0
    inputArrayAlloc := fun _ _ sub _ => 16 + sub
    outputArrayAddress := fun _ _ _ => 0
    outputArraySize := fun _ _ _ => 0
    outputJsonAddress := fun _ _ => 0
    outputJsonSize := fun _ _ => 0
    delayedStartCode := 0
    parseImageJson := fun _ => .error "parse failure"
    parseMeshJson := fun _ => .error "parse failure"
    parsePolyDataJson := fun _ => .error "parse failure" }

/-- Evaluation facts for the event classifiers on the lifecycle events. -/
theorem startEv_initCall : GuestCall.initCall.isDelayedStartEv = false := rfl

/-- `delayedStart` is a delayed-start event. -/
theorem startEv_delayedStart : GuestCall.delayedStart.isDelayedStartEv = true := rfl

/-- `delayedExit` is not a delayed-start event. -/
theorem startEv_delayedExit (code : Int) :
    (GuestCall.delayedExit code).isDelayedStartEv = false := rfl

/-- `initCall` is not a delayed-exit event. -/
theorem exitEv_initCall : GuestCall.initCall.isDelayedExitEv = false := rfl

/-- `delayedStart` is not a delayed-exit event. -/
theorem exitEv_delayedStart : GuestCall.delayedStart.isDelayedExitEv = false := rfl

/-- `delayedExit` is a delayed-exit event. -/
theorem exitEv_delayedExit (code : Int) :
    (GuestCall.delayedExit code).isDelayedExitEv = true := rfl

/-- C3 (amended): `itk_wasm_delayed_exit` is invoked exactly once per
`itk_wasm_delayed_start` invocation on every run that raises no exception;
but when a run aborts with an error — including a decode error raised after
`delayed_start` returned — `delayed_exit` is not invoked at all (there is no
`try`/`finally` in the source). -/
theorem c3_amended (g : Guest) (args : List String) (outputs : List PipelineOutputSpec)
    (inputs : List PipelineInput) :
    (∀ outs, (Pipeline.run g args outputs inputs).result = .ok outs →
      (Pipeline.run g args outputs inputs).trace.countP (fun c => c.isDelayedStartEv) = 1 ∧
      (Pipeline.run g args outputs inputs).trace.countP (fun c => c.isDelayedExitEv) = 1) ∧
    (∀ e, (Pipeline.run g args outputs inputs).result = .error e →
      (Pipeline.run g args outputs inputs).trace.countP (fun c => c.isDelayedExitEv) = 0) := by
  constructor
  · intro outs hok
    obtain ⟨tE, tD, hE, hD, hRun⟩ := run_ok_shape g args outputs inputs outs hok
    have htE : ∀ c ∈ tE, c.isInputPhase = true := by
      have h' := encodeAll_input_phase g inputs 0
      rw [hE] at h'; exact h'
    have htD : ∀ c ∈ tD, c.isOutputPhase = true := by
      have h' : ∀ c ∈ (if outputs.length ≠ 0 ∧ g.delayedStartCode = 0
          then decodeAll g 0 outputs else ([], .ok [])).1, c.isOutputPhase = true := by
        split
        · exact decodeAll_output_phase g outputs 0
        · intro c hc; simp at hc
      rw [hD] at h'; exact h'
    have hE0 : tE.countP (fun c => c.isDelayedStartEv) = 0 :=
      countP_zero_of_forall (fun c hc => (isInputPhase_excl c (htE c hc)).2.1)
    have hE1 : tE.countP (fun c => c.isDelayedExitEv) = 0 :=
      countP_zero_of_forall (fun c hc => (isInputPhase_excl c (htE c hc)).2.2)
    have hD0 : tD.countP (fun c => c.isDelayedStartEv) = 0 :=
      countP_zero_of_forall (fun c hc => (isOutputPhase_excl c (htD c hc)).2.1)
    have hD1 : tD.countP (fun c => c.isDelayedExitEv) = 0 :=
      countP_zero_of_forall (fun c hc => (isOutputPhase_excl c (htD c hc)).2.2)
    rw [hRun]
    constructor
    · simp [List.countP_cons, List.countP_append, List.countP_nil, hE0, hD0,
        startEv_initCall, startEv_delayedStart, startEv_delayedExit]
    · simp [List.countP_cons, List.countP_append, List.countP_nil, hE1, hD1,
        exitEv_initCall, exitEv_delayedStart, exitEv_delayedExit]
  · intro e herr
    rcases run_error_shape g args outputs inputs e herr with h0 | ⟨tE, htE, h1 | ⟨tD, htD, h2⟩⟩
    · rw [h0]; rfl
    · rw [h1]
      have hE1 : tE.countP (fun c => c.isDelayedExitEv) = 0 :=
        countP_zero_of_forall (fun c hc => (isInputPhase_excl c (htE c hc)).2.2)
      simp [List.countP_cons, hE1, exitEv_initCall]
    · rw [h2]
      have hE1 : tE.countP (fun c => c.isDelayedExitEv) = 0 :=
        countP_zero_of_forall (fun c hc => (isInputPhase_excl c (htE c hc)).2.2)
      have hD1 : tD.countP (fun c => c.isDelayedExitEv) = 0 :=
        countP_zero_of_forall (fun c hc => (isOutputPhase_excl c (htD c hc)).2.2)
      simp [List.countP_cons, List.countP_append, hE1, hD1, exitEv_initCall,
        exitEv_delayedStart]

/-- Witness for C3 (amended): a successful run invokes `delayed_start` and
`delayed_exit` once each; a run whose output fails to decode invokes
`delayed_exit` zero times. -/
theorem c3_amended_witness :
    ((Pipeline.run gBase [] [] []).trace.countP (fun c => c.isDelayedStartEv) = 1 ∧
     (Pipeline.run gBase [] [] []).trace.countP (fun c => c.isDelayedExitEv) = 1) ∧
    (Pipeline.run gBase [] [PipelineOutputSpec.image] []).trace.countP
      (fun c => c.isDelayedExitEv) = 0 :=
  ⟨(c3_amended gBase [] [] []).1 [] rfl,
   (c3_amended gBase [] [PipelineOutputSpec.image] []).2
     (RunError.decodeError "parse failure") rfl⟩

/-- C5 (confirmed): when `itk_wasm_delayed_start` returns a non-zero code
and the run completes, the output tuple is empty regardless of the declared
output slots, no output accessor is called, and `itk_wasm_delayed_exit` is
still invoked with that return code. -/
theorem c5_nonzero_return_code (g : Guest) (args : List String)
    (outputs : List PipelineOutputSpec) (inputs : List PipelineInput)
    (outs : List (Option DecodedOutput))
    (hrc : g.delayedStartCode ≠ 0)
    (hok : (Pipeline.run g args outputs inputs).result = .ok outs) :
    outs = [] ∧
    GuestCall.delayedExit g.delayedStartCode ∈ (Pipeline.run g args outputs inputs).trace ∧
    ∀ c ∈ (Pipeline.run g args outputs inputs).trace, c.isOutputPhase = false := by
  obtain ⟨tE, tD, hE, hD, hRun⟩ := run_ok_shape g args outputs inputs outs hok
  have htE : ∀ c ∈ tE, c.isInputPhase = true := by
    have h' := encodeAll_input_phase g inputs 0
    rw [hE] at h'; exact h'
  have hcond : ¬ (outputs.length ≠ 0 ∧ g.delayedStartCode = 0) := fun hand => hrc hand.2
  rw [if_neg hcond] at hD
  simp only [Prod.mk.injEq, Except.ok.injEq] at hD
  obtain ⟨htD, houts⟩ := hD
  subst htD
  subst houts
  refine ⟨rfl, ?_, ?_⟩
  · rw [hRun]
    simp
  · intro c hc
    rw [hRun] at hc
    simp only [List.mem_cons, List.mem_append, List.nil_append, List.not_mem_nil,
      or_false] at hc
    rcases hc with rfl | hc | rfl | rfl
    · rfl
    · exact (isInputPhase_excl c (htE c hc)).1
    · rfl
    · rfl

/-- The guest used to witness C5: `delayed_start` returns 1. -/
def gC5 : Guest := { gBase with delayedStartCode := 1 }

/-- Witness for C5: with return code 1 and a declared `BinaryStream` output,
the run returns an empty tuple, calls `delayed_exit(1)`, and never touches
the output accessors. -/
theorem c5_nonzero_return_code_witness :
    ([] : List (Option DecodedOutput)) = [] ∧
    GuestCall.delayedExit gC5.delayedStartCode ∈
      (Pipeline.run gC5 [] [PipelineOutputSpec.binaryStream] []).trace ∧
    ∀ c ∈ (Pipeline.run gC5 [] [PipelineOutputSpec.binaryStream] []).trace,
      c.isOutputPhase = false :=
  c5_nonzero_return_code gC5 [] [PipelineOutputSpec.binaryStream] [] [] (by decide) rfl

/-- C10 (confirmed): an output slot declared with a kind the decode cascade
does not handle raises no error; with a zero return code the populated
output tuple holds `None` at that slot. -/
theorem c10_unhandled_kind_yields_none (g : Guest) (args : List String)
    (outputs : List PipelineOutputSpec) (inputs : List PipelineInput)
    (idx : Nat) (outs : List (Option DecodedOutput))
    (hk : outputs[idx]? = some PipelineOutputSpec.jsonObject)
    (hrc : g.delayedStartCode = 0)
    (hok : (Pipeline.run g args outputs inputs).result = .ok outs) :
    outs[idx]? = some none := by
  obtain ⟨tE, tD, hE, hD, hRun⟩ := run_ok_shape g args outputs inputs outs hok
  have hlen : outputs.length ≠ 0 := by
    intro h0
    rw [List.length_eq_zero] at h0
    subst h0
    simp at hk
  rw [if_pos ⟨hlen, hrc⟩] at hD
  exact decodeAll_jsonObject_none g outputs 0 tD outs hD idx hk

/-- Witness for C10: a run with a single `jsonObject`-kind output slot
succeeds and returns a tuple containing `None`. -/
theorem c10_unhandled_kind_yields_none_witness :
    (([none] : List (Option DecodedOutput)))[0]? = some none :=
  c10_unhandled_kind_yields_none gBase [] [PipelineOutputSpec.jsonObject] [] 0 [none]
    rfl rfl rfl

/-- Is the component-type tag outside the set `_memoryview_to_numpy_array`
handles? -/
def ComponentType.isOther : ComponentType → Bool
  | .other _ => true
  | _ => false

/-- Reading zero bytes yields the empty buffer. -/
theorem readMem_zero (m : Nat → Nat) (p : Nat) : readMem m p 0 = [] := rfl

/-- `readMem` returns exactly the requested number of bytes. -/
theorem readMem_length (m : Nat → Nat) (p n : Nat) : (readMem m p n).length = n := by
  simp [readMem]

/-- Converting an empty buffer succeeds for every handled component type. -/
theorem memoryviewToNumpyArray_nil (ct : ComponentType) (h : ct.isOther = false) :
    memoryviewToNumpyArray ct [] = .ok ⟨ct, []⟩ := by
  cases ct <;> simp_all [memoryviewToNumpyArray, ComponentType.isOther, ComponentType.elementSize]

/-- Converting a buffer whose length is a multiple of 8 to `float64`
succeeds. -/
theorem memoryviewToNumpyArray_mod8 (bytes : List Nat) (h : bytes.length % 8 = 0) :
    memoryviewToNumpyArray ComponentType.float64 bytes =
      .ok ⟨ComponentType.float64, bytes⟩ := by
  simp [memoryviewToNumpyArray, ComponentType.elementSize, h]

/-- The parsed `PolyData` output descriptor used for C1: every gating count
and buffer size is zero, and the buffer fields carry the address-URL strings
the guest's JSON contained. -/
def pdDescEmpty : PolyDataDesc :=
  { polyDataType := { pointPixelComponentType := .uint8, cellPixelComponentType := .uint8 }
    name := "pd"
    numberOfPoints := 0
    points := "points-url"
    verticesBufferSize := 0
    vertices := "vertices-url"
    linesBufferSize := 0
    lines := "lines-url"
    polygonsBufferSize := 0
    polygons := "polygons-url"
    triangleStripsBufferSize := 0
    triangleStrips := "triangleStrips-url"
    numberOfPointPixels := 0
    pointData := "pointData-url"
    numberOfCellPixels := 0
    cellData := "cellData-url" }

/-- The guest used for C1: its `PolyData` output descriptor is
`pdDescEmpty`. -/
def gC1 : Guest := { gBase with parsePolyDataJson := fun _ => .ok pdDescEmpty }

/-- C1 (code bug, evaluated at the failing input): decoding a `PolyData`
output with `numberOfPointPixels = 0` and `numberOfCellPixels = 0` leaves
`pointData` and `cellData` holding the strings taken from the JSON
descriptor — the zero-length typed arrays are mis-assigned to
`triangleStrips` instead — contradicting the claim that the gated field
itself receives the empty typed array. -/
theorem c1_polydata_empty_gating_code_bug :
    (Pipeline.run gC1 [] [PipelineOutputSpec.polyData] []).result =
      .ok [some (DecodedOutput.polyData
        { polyDataType := { pointPixelComponentType := .uint8, cellPixelComponentType := .uint8 }
          name := "pd"
          numberOfPoints := 0
          verticesBufferSize := 0
          linesBufferSize := 0
          polygonsBufferSize := 0
          triangleStripsBufferSize := 0
          numberOfPointPixels := 0
          numberOfCellPixels := 0
          points := BufField.array ⟨ComponentType.float32, []⟩
          vertices := BufField.array ⟨ComponentType.uint32, []⟩
          lines := BufField.array ⟨ComponentType.uint32, []⟩
          polygons := BufField.array ⟨ComponentType.uint32, []⟩
          triangleStrips := BufField.array ⟨ComponentType.uint8, []⟩
          pointData := BufField.fromJson "pointData-url"
          cellData := BufField.fromJson "cellData-url" })] ∧
    BufField.fromJson "pointData-url" ≠ BufField.array ⟨ComponentType.uint8, []⟩ ∧
    BufField.fromJson "cellData-url" ≠ BufField.array ⟨ComponentType.uint8, []⟩ := by
  refine ⟨rfl, by decide, by decide⟩

/-- The guest used for C4's counterexample: `itk_wasm_delayed_start` is the
only missing export. -/
def gC4 : Guest := { gBase with hasDelayedStart := false }

/-- C4 counterexample: a module missing only `itk_wasm_delayed_start` does
not fail before any guest call — `_initialize` has already been invoked when
the missing export is discovered after input encoding. -/
theorem c4_counterexample :
    (Pipeline.run gC4 [] [] []).result =
      .error (.missingExport "itk_wasm_delayed_start") ∧
    (Pipeline.run gC4 [] [] []).trace = [GuestCall.initCall] := ⟨rfl, rfl⟩

/-- The export-resolution step either succeeds or raises a
`MissingExport`. -/
theorem resolveExports_cases (g : Guest) :
    resolveExports g = .ok () ∨ ∃ n, resolveExports g = .error (.missingExport n) := by
  unfold resolveExports
  repeat' split
  all_goals first
    | exact Or.inl rfl
    | exact Or.inr ⟨_, rfl⟩

/-- The export-resolution step succeeds exactly when the seven
instantiation-time exports are all present. -/
theorem resolveExports_ok_iff (g : Guest) :
    resolveExports g = .ok () ↔
      (g.hasMemory = true ∧ g.hasInputArrayAlloc = true ∧ g.hasInputJsonAlloc = true ∧
       g.hasOutputArrayAddress = true ∧ g.hasOutputArraySize = true ∧
       g.hasOutputJsonAddress = true ∧ g.hasOutputJsonSize = true) := by
  unfold resolveExports
  repeat' split <;> simp_all

/-- C4 (amended): every export resolved before the first guest call —
`memory` and the six allocators/accessors (bound at instantiation) and
`_initialize` (looked up at its call site, still before any guest call) —
makes a module missing it fail with `MissingExport` while the trace is
still empty; `itk_wasm_delayed_start` (and likewise `itk_wasm_delayed_exit`)
is instead resolved only at its call site, so a module missing only it fails
after `_initialize` and input encoding, with guest calls already made. -/
theorem c4_amended (g : Guest) (args : List String) (outputs : List PipelineOutputSpec)
    (inputs : List PipelineInput) :
    ((g.hasMemory = false ∨ g.hasInputArrayAlloc = false ∨ g.hasInputJsonAlloc = false ∨
      g.hasOutputArrayAddress = false ∨ g.hasOutputArraySize = false ∨
      g.hasOutputJsonAddress = false ∨ g.hasOutputJsonSize = false ∨
      g.hasInitExport = false) →
      (∃ n, (Pipeline.run g args outputs inputs).result = .error (.missingExport n)) ∧
      (Pipeline.run g args outputs inputs).trace = []) ∧
    (∀ tE : List GuestCall, resolveExports g = .ok () → g.hasInitExport = true →
      g.hasDelayedStart = false → encodeAll g 0 inputs = (tE, .ok ()) →
      (Pipeline.run g args outputs inputs).result =
        .error (.missingExport "itk_wasm_delayed_start") ∧
      (Pipeline.run g args outputs inputs).trace = GuestCall.initCall :: tE ∧
      GuestCall.initCall ∈ (Pipeline.run g args outputs inputs).trace) := by
  constructor
  · intro h
    rcases resolveExports_cases g with hok | ⟨n, hn⟩
    · have hall := (resolveExports_ok_iff g).mp hok
      have hinit : g.hasInitExport = false := by
        rcases h with hf | hf | hf | hf | hf | hf | hf | hf <;> simp_all
      constructor
      · exact ⟨"_initialize", by unfold Pipeline.run; rw [hok]; simp [hinit]⟩
      · unfold Pipeline.run; rw [hok]; simp [hinit]
    · constructor
      · exact ⟨n, by unfold Pipeline.run; rw [hn]⟩
      · unfold Pipeline.run; rw [hn]
  · intro tE hres hinit hsd hE
    refine ⟨?_, ?_, ?_⟩ <;>
      (unfold Pipeline.run; rw [hres]; simp only [hinit, if_true]; rw [hE]; simp [hsd])

/-- The guest used to witness C4 (amended), first part:
`itk_wasm_output_json_size` is missing. -/
def gC4m : Guest := { gBase with hasOutputJsonSize := false }

/-- The guest used to witness C4 (amended), first part: `_initialize` is
the only missing export. -/
def gC4i : Guest := { gBase with hasInitExport := false }

/-- Witness for C4 (amended): with `itk_wasm_output_json_size` missing, or
with only `_initialize` missing, the run fails with a `MissingExport` and
an empty trace — before any guest call; with only `itk_wasm_delayed_start`
missing, the run fails only after `_initialize` has been invoked. -/
theorem c4_amended_witness :
    ((∃ n, (Pipeline.run gC4m [] [] []).result = .error (.missingExport n)) ∧
     (Pipeline.run gC4m [] [] []).trace = []) ∧
    ((∃ n, (Pipeline.run gC4i [] [] []).result = .error (.missingExport n)) ∧
     (Pipeline.run gC4i [] [] []).trace = []) ∧
    ((Pipeline.run gC4 [] [] []).result = .error (.missingExport "itk_wasm_delayed_start") ∧
     (Pipeline.run gC4 [] [] []).trace = GuestCall.initCall :: [] ∧
     GuestCall.initCall ∈ (Pipeline.run gC4 [] [] []).trace) :=
  ⟨(c4_amended gC4m [] [] []).1
     (Or.inr (Or.inr (Or.inr (Or.inr (Or.inr (Or.inr (Or.inl rfl))))))),
   (c4_amended gC4i [] [] []).1
     (Or.inr (Or.inr (Or.inr (Or.inr (Or.inr (Or.inr (Or.inr rfl))))))),
   (c4_amended gC4 [] [] []).2 [] rfl rfl rfl rfl⟩

/-- The parsed `Image` output descriptor used for C8: one-dimensional
`uint8` image. -/
def imgDescC8 : ImageDesc :=
  { imageType := { dimension := 1, componentType := .uint8, pixelType := "Scalar", components := 1 }
    name := "img"
    origin := []
    spacing := []
    size := [0] }

/-- The guest used for C8: the `Image` descriptor parses to `imgDescC8`,
the pixel sub-buffer (sub-index 0) reports size 0 and the direction
sub-buffer (sub-index 1) reports 8 bytes. -/
def gC8 : Guest :=
  { gBase with
    parseImageJson := fun _ => .ok imgDescC8
    outputArraySize := fun _ _ sub => if sub == 0 then 0 else 8 }

/-- C8 counterexample: with size-0 pixel data, decoding an `Image` output
does produce the empty typed array of the declared component type, but
`output_array_address(0, slot, 0)` is still invoked for that sub-buffer —
refuting the claim that the accessor is not called. -/
theorem c8_counterexample :
    (Pipeline.run gC8 [] [PipelineOutputSpec.image] []).result =
      .ok [some (DecodedOutput.image
        { imageType :=
            { dimension := 1, componentType := .uint8, pixelType := "Scalar", components := 1 }
          name := "img"
          origin := []
          spacing := []
          size := [0]
          data := ⟨ComponentType.uint8, []⟩
          direction := ⟨ComponentType.float64, [0, 0, 0, 0, 0, 0, 0, 0]⟩ })] ∧
    GuestCall.outputArrayAddress 0 0 0 ∈
      (Pipeline.run gC8 [] [PipelineOutputSpec.image] []).trace := by
  exact ⟨rfl, by decide⟩

/-- C8 (amended): for an `Image` output slot whose pixel data has size 0
(and whose direction buffer has the 8·dim² bytes the reshape requires),
decoding produces the empty typed array of the declared component type, but
the guest accessors for sub-buffer 0 are still invoked. -/
theorem c8_amended (g : Guest) (idx : Nat) (desc : ImageDesc)
    (hparse : g.parseImageJson (getOutputJsonBytes g idx).2 = .ok desc)
    (hsupported : desc.imageType.componentType.isOther = false)
    (hsize : g.outputArraySize 0 idx 0 = 0)
    (hdir : g.outputArraySize 0 idx 1 =
      8 * (desc.imageType.dimension * desc.imageType.dimension)) :
    (decodeImageOutput g idx).2 = .ok (some (.image
      { imageType := desc.imageType
        name := desc.name
        origin := desc.origin
        spacing := desc.spacing
        size := desc.size
        data := ⟨desc.imageType.componentType, []⟩
        direction := ⟨ComponentType.float64,
          readMem g.memory (g.outputArrayAddress 0 idx 1)
            (8 * (desc.imageType.dimension * desc.imageType.dimension))⟩ })) ∧
    GuestCall.outputArrayAddress 0 idx 0 ∈ (decodeImageOutput g idx).1 := by
  have h0 : memoryviewToNumpyArray desc.imageType.componentType
      (readMem g.memory (g.outputArrayAddress 0 idx 0) (g.outputArraySize 0 idx 0)) =
      .ok ⟨desc.imageType.componentType, []⟩ := by
    rw [hsize, readMem_zero]
    exact memoryviewToNumpyArray_nil _ hsupported
  have h1 : memoryviewToNumpyArray ComponentType.float64
      (readMem g.memory (g.outputArrayAddress 0 idx 1) (g.outputArraySize 0 idx 1)) =
      .ok ⟨ComponentType.float64,
        readMem g.memory (g.outputArrayAddress 0 idx 1)
          (8 * (desc.imageType.dimension * desc.imageType.dimension))⟩ := by
    rw [hdir]
    exact memoryviewToNumpyArray_mod8 _ (by simp [readMem_length, Nat.mul_mod_right])
  have hmain : decodeImageOutput g idx =
      ((getOutputJsonBytes g idx).1 ++
        [GuestCall.outputArrayAddress 0 idx 0, GuestCall.outputArraySize 0 idx 0] ++
        [GuestCall.outputArrayAddress 0 idx 1, GuestCall.outputArraySize 0 idx 1],
       .ok (some (.image
        { imageType := desc.imageType
          name := desc.name
          origin := desc.origin
          spacing := desc.spacing
          size := desc.size
          data := ⟨desc.imageType.componentType, []⟩
          direction := ⟨ComponentType.float64,
            readMem g.memory (g.outputArrayAddress 0 idx 1)
              (8 * (desc.imageType.dimension * desc.imageType.dimension))⟩ }))) := by
    simp only [decodeImageOutput, readOutputArray, hparse, h0, h1]
    rw [if_pos (by simp [readMem_length])]
  rw [hmain]
  constructor
  · rfl
  · simp [getOutputJsonBytes]

/-- Witness for C8 (amended): the concrete guest `gC8` satisfies all
hypotheses; the decoded image holds an empty `uint8` array while the
accessor for sub-buffer 0 appears in the trace. -/
theorem c8_amended_witness :
    (decodeImageOutput gC8 0).2 = .ok (some (.image
      { imageType := imgDescC8.imageType
        name := imgDescC8.name
        origin := imgDescC8.origin
        spacing := imgDescC8.spacing
        size := imgDescC8.size
        data := ⟨imgDescC8.imageType.componentType, []⟩
        direction := ⟨ComponentType.float64,
          readMem gC8.memory (gC8.outputArrayAddress 0 0 1)
            (8 * (imgDescC8.imageType.dimension * imgDescC8.imageType.dimension))⟩ })) ∧
    GuestCall.outputArrayAddress 0 0 0 ∈ (decodeImageOutput gC8 0).1 :=
  c8_amended gC8 0 imgDescC8 rfl rfl rfl rfl

/-- C9 (code bug, evaluated): in the generated stub
`downsample_label_image_async`, the default of `shrink_factors` is the empty
list but the default of `crop_radius` is the empty dict `\x7b\x7d`, not a
`list` — contradicting the declared type `List[int]` and the claim that the
default is an empty ordered sequence. -/
theorem c9_crop_radius_default_code_bug :
    downsampleLabelImageAsyncDefaults.shrink_factors = PyValue.pyList [] ∧
    downsampleLabelImageAsyncDefaults.crop_radius = PyValue.pyDict [] ∧
    downsampleLabelImageAsyncDefaults.crop_radius.isPyList = false :=
  ⟨rfl, rfl, rfl⟩

/-- `insertDedup` preserves duplicate-freedom. -/
theorem insertDedup_nodup (l : List String) (s : String) (h : l.Nodup) :
    (insertDedup l s).Nodup := by
  by_cases hs : s ∈ l
  · simpa [insertDedup, hs] using h
  · simp [insertDedup, hs, List.nodup_append, h]

/-- The inserted element is a member afterwards. -/
theorem mem_insertDedup_self (l : List String) (s : String) : s ∈ insertDedup l s := by
  by_cases hs : s ∈ l <;> simp [insertDedup, hs]

/-- `insertDedup` keeps existing members. -/
theorem mem_insertDedup_of_mem {x : String} (l : List String) (s : String) (h : x ∈ l) :
    x ∈ insertDedup l s := by
  by_cases hs : s ∈ l <;> simp [insertDedup, hs, h]

/-- The per-input preopen step preserves duplicate-freedom. -/
theorem preopenStepInput_nodup (acc : List String) (inp : PipelineInput) (h : acc.Nodup) :
    (preopenStepInput acc inp).Nodup := by
  cases inp <;> simp only [preopenStepInput] <;>
    first
      | exact h
      | exact insertDedup_nodup _ _ h

/-- The per-output preopen step preserves duplicate-freedom. -/
theorem preopenStepOutput_nodup (acc : List String) (o : PipelineOutputSpec) (h : acc.Nodup) :
    (preopenStepOutput acc o).Nodup := by
  cases o <;> simp only [preopenStepOutput] <;>
    first
      | exact h
      | exact insertDedup_nodup _ _ h

/-- The per-input preopen step keeps existing members. -/
theorem mem_preopenStepInput {x : String} (acc : List String) (inp : PipelineInput)
    (h : x ∈ acc) : x ∈ preopenStepInput acc inp := by
  cases inp <;> simp only [preopenStepInput] <;>
    first
      | exact h
      | exact mem_insertDedup_of_mem _ _ h

/-- The per-output preopen step keeps existing members. -/
theorem mem_preopenStepOutput {x : String} (acc : List String) (o : PipelineOutputSpec)
    (h : x ∈ acc) : x ∈ preopenStepOutput acc o := by
  cases o <;> simp only [preopenStepOutput] <;>
    first
      | exact h
      | exact mem_insertDedup_of_mem _ _ h

/-- Folding the input preopen step preserves duplicate-freedom. -/
theorem foldl_preopenStepInput_nodup :
    ∀ (xs : List PipelineInput) (acc : List String), acc.Nodup →
      (xs.foldl preopenStepInput acc).Nodup := by
  intro xs
  induction xs with
  | nil => intro acc h; simpa using h
  | cons x rest ih => intro acc h; exact ih _ (preopenStepInput_nodup acc x h)

/-- Folding the output preopen step preserves duplicate-freedom. -/
theorem foldl_preopenStepOutput_nodup :
    ∀ (xs : List PipelineOutputSpec) (acc : List String), acc.Nodup →
      (xs.foldl preopenStepOutput acc).Nodup := by
  intro xs
  induction xs with
  | nil => intro acc h; simpa using h
  | cons x rest ih => intro acc h; exact ih _ (preopenStepOutput_nodup acc x h)

/-- Folding the input preopen step keeps existing members. -/
theorem mem_foldl_preopenStepInput {y : String} :
    ∀ (xs : List PipelineInput) (acc : List String), y ∈ acc →
      y ∈ xs.foldl preopenStepInput acc := by
  intro xs
  induction xs with
  | nil => intro acc h; simpa using h
  | cons x rest ih => intro acc h; exact ih _ (mem_preopenStepInput acc x h)

/-- Folding the output preopen step keeps existing members. -/
theorem mem_foldl_preopenStepOutput {y : String} :
    ∀ (xs : List PipelineOutputSpec) (acc : List String), y ∈ acc →
      y ∈ xs.foldl preopenStepOutput acc := by
  intro xs
  induction xs with
  | nil => intro acc h; simpa using h
  | cons x rest ih => intro acc h; exact ih _ (mem_preopenStepOutput acc x h)

/-- A file-kind input's parent directory ends up in the folded preopen
list. -/
theorem parent_mem_foldl_preopenStepInput {p : PyPath} :
    ∀ (xs : List PipelineInput) (acc : List String),
      (PipelineInput.textFile p ∈ xs ∨ PipelineInput.binaryFile p ∈ xs) →
      p.parent ∈ xs.foldl preopenStepInput acc := by
  intro xs
  induction xs with
  | nil => intro acc h; rcases h with h | h <;> simp at h
  | cons x rest ih =>
    intro acc h
    rcases h with h | h
    · rcases List.mem_cons.mp h with rfl | hmem
      · exact mem_foldl_preopenStepInput rest _ (mem_insertDedup_self _ _)
      · exact ih _ (Or.inl hmem)
    · rcases List.mem_cons.mp h with rfl | hmem
      · exact mem_foldl_preopenStepInput rest _ (mem_insertDedup_self _ _)
      · exact ih _ (Or.inr hmem)

/-- A file-kind output's parent directory ends up in the folded preopen
list. -/
theorem parent_mem_foldl_preopenStepOutput {p : PyPath} :
    ∀ (xs : List PipelineOutputSpec) (acc : List String),
      (PipelineOutputSpec.textFile p ∈ xs ∨ PipelineOutputSpec.binaryFile p ∈ xs) →
      p.parent ∈ xs.foldl preopenStepOutput acc := by
  intro xs
  induction xs with
  | nil => intro acc h; rcases h with h | h <;> simp at h
  | cons x rest ih =>
    intro acc h
    rcases h with h | h
    · rcases List.mem_cons.mp h with rfl | hmem
      · exact mem_foldl_preopenStepOutput rest _ (mem_insertDedup_self _ _)
      · exact ih _ (Or.inl hmem)
    · rcases List.mem_cons.mp h with rfl | hmem
      · exact mem_foldl_preopenStepOutput rest _ (mem_insertDedup_self _ _)
      · exact ih _ (Or.inr hmem)

/-- C7 (confirmed): the preopen list built by `Pipeline.run` is
duplicate-free; every `TextFile` / `BinaryFile` input or output contributes
the parent directory of its path to it; and encoding a file-kind slot makes
no guest calls at all (both the input-array and the input-json allocation
steps are skipped). -/
theorem c7_file_kinds :
    (∀ (g : Guest) (args : List String) (outputs : List PipelineOutputSpec)
       (inputs : List PipelineInput),
       (Pipeline.run g args outputs inputs).preopenDirectories = preopenDirs inputs outputs) ∧
    (∀ (inputs : List PipelineInput) (outputs : List PipelineOutputSpec),
       (preopenDirs inputs outputs).Nodup) ∧
    (∀ (inputs : List PipelineInput) (outputs : List PipelineOutputSpec) (p : PyPath),
       PipelineInput.textFile p ∈ inputs ∨ PipelineInput.binaryFile p ∈ inputs →
       p.parent ∈ preopenDirs inputs outputs) ∧
    (∀ (inputs : List PipelineInput) (outputs : List PipelineOutputSpec) (p : PyPath),
       PipelineOutputSpec.textFile p ∈ outputs ∨ PipelineOutputSpec.binaryFile p ∈ outputs →
       p.parent ∈ preopenDirs inputs outputs) ∧
    (∀ (g : Guest) (idx : Nat) (p : PyPath),
       encodeInput g idx (.textFile p) = ([], .ok none) ∧
       encodeInput g idx (.binaryFile p) = ([], .ok none)) := by
  refine ⟨run_preopen, ?_, ?_, ?_, ?_⟩
  · intro inputs outputs
    exact foldl_preopenStepOutput_nodup outputs _
      (foldl_preopenStepInput_nodup inputs [] List.nodup_nil)
  · intro inputs outputs p h
    exact mem_foldl_preopenStepOutput outputs _
      (parent_mem_foldl_preopenStepInput inputs [] h)
  · intro inputs outputs p h
    exact parent_mem_foldl_preopenStepOutput outputs _ h
  · intro g idx p
    exact ⟨rfl, rfl⟩

/-- Witness for C7: a `TextFile` input under `/tmp/a` and a `BinaryFile`
output under `/tmp/b` both contribute their parent directories to the
preopen list. -/
theorem c7_file_kinds_witness :
    "/tmp/a" ∈ preopenDirs [PipelineInput.textFile ⟨"/tmp/a", "in.txt"⟩]
      [PipelineOutputSpec.binaryFile ⟨"/tmp/b", "out.bin"⟩] ∧
    "/tmp/b" ∈ preopenDirs [PipelineInput.textFile ⟨"/tmp/a", "in.txt"⟩]
      [PipelineOutputSpec.binaryFile ⟨"/tmp/b", "out.bin"⟩] :=
  ⟨c7_file_kinds.2.2.1 [PipelineInput.textFile ⟨"/tmp/a", "in.txt"⟩]
     [PipelineOutputSpec.binaryFile ⟨"/tmp/b", "out.bin"⟩] ⟨"/tmp/a", "in.txt"⟩
     (Or.inl (List.mem_singleton.mpr rfl)),
   c7_file_kinds.2.2.2.1 [PipelineInput.textFile ⟨"/tmp/a", "in.txt"⟩]
     [PipelineOutputSpec.binaryFile ⟨"/tmp/b", "out.bin"⟩] ⟨"/tmp/b", "out.bin"⟩
     (Or.inr (List.mem_singleton.mpr rfl))⟩

/-- The gating count for each canonical `Mesh` sub-index (Table T1):
0 = points / `numberOfPoints`, 1 = cells / `numberOfCells`,
2 = pointData / `numberOfPointPixels`, 3 = cellData / `numberOfCellPixels`. -/
def meshGate (m : MeshInput) : Nat → Nat
  | 0 => m.numberOfPoints
  | 1 => m.numberOfCells
  | 2 => m.numberOfPointPixels
  | 3 => m.numberOfCellPixels
  | _ => 0

/-- The gating count for each canonical `PolyData` sub-index (Table T1):
0 = points, 1 = vertices, 2 = lines, 3 = polygons, 4 = triangleStrips,
5 = pointData, 6 = cellData. -/
def polyDataGate (pd : PolyDataInput) : Nat → Nat
  | 0 => pd.numberOfPoints
  | 1 => pd.verticesBufferSize
  | 2 => pd.linesBufferSize
  | 3 => pd.polygonsBufferSize
  | 4 => pd.triangleStripsBufferSize
  | 5 => pd.numberOfPointPixels
  | 6 => pd.numberOfCellPixels
  | _ => 0

/-- A `Mesh` input whose four gating counts are all zero. -/
def meshZero : MeshInput :=
  { meshType :=
      { pointComponentType := .float32
        cellComponentType := .uint32
        pointPixelComponentType := .float32
        cellPixelComponentType := .float32 }
    name := "mesh"
    numberOfPoints := 0
    points := []
    numberOfCells := 0
    cells := []
    cellBufferSize := 0
    numberOfPointPixels := 0
    pointData := []
    numberOfCellPixels := 0
    cellData := [] }

/-- A `PolyData` input whose seven gating counts are all zero. -/
def pdZero : PolyDataInput :=
  { polyDataType := { pointPixelComponentType := .float32, cellPixelComponentType := .float32 }
    name := "polydata"
    numberOfPoints := 0
    points := []
    verticesBufferSize := 0
    vertices := []
    linesBufferSize := 0
    lines := []
    polygonsBufferSize := 0
    polygons := []
    triangleStripsBufferSize := 0
    triangleStrips := []
    numberOfPointPixels := 0
    pointData := []
    numberOfCellPixels := 0
    cellData := [] }

/-- C2 counterexample: encoding a `Mesh` input whose `numberOfPoints` is
zero makes one call — not zero calls — to the guest input-array allocator
for sub-index 0 (`_set_input_array` is invoked with `bytes([])`, which is
not `None`). -/
theorem c2_counterexample :
    meshZero.numberOfPoints = 0 ∧
    (encodeInput gBase 0 (PipelineInput.mesh meshZero)).1.countP
      (fun c => c.isInputArrayAllocSub 0) = 1 :=
  ⟨rfl, by decide⟩

/-- C2 (amended): for every `Mesh` / `PolyData` input and every canonical
sub-index, encoding makes exactly one input-array allocator call for that
sub-index; when the gating count is zero, that call passes size 0 (the
empty sub-buffer is represented with length 0), rather than being skipped. -/
theorem c2_amended (g : Guest) (idx : Nat) (m : MeshInput) (pd : PolyDataInput) :
    (∀ sub : Nat, sub < 4 →
      (encodeInput g idx (.mesh m)).1.countP (fun c => c.isInputArrayAllocSub sub) = 1 ∧
      (meshGate m sub = 0 →
        GuestCall.inputArrayAlloc 0 idx sub 0 (g.inputArrayAlloc 0 idx sub 0) ∈
          (encodeInput g idx (.mesh m)).1)) ∧
    (∀ sub : Nat, sub < 7 →
      (encodeInput g idx (.polyData pd)).1.countP (fun c => c.isInputArrayAllocSub sub) = 1 ∧
      (polyDataGate pd sub = 0 →
        GuestCall.inputArrayAlloc 0 idx sub 0 (g.inputArrayAlloc 0 idx sub 0) ∈
          (encodeInput g idx (.polyData pd)).1)) := by
  constructor
  · intro sub hsub
    interval_cases sub <;>
      exact ⟨by simp [encodeInput, encodeMeshInput, setInputArray, setInputJson,
          GuestCall.isInputArrayAllocSub, List.countP_cons, List.countP_nil],
        fun h0 => by
          simp only [meshGate] at h0
          simp [encodeInput, encodeMeshInput, setInputArray, setInputJson, h0]⟩
  · intro sub hsub
    interval_cases sub <;>
      exact ⟨by simp [encodeInput, encodePolyDataInput, setInputArray, setInputJson,
          GuestCall.isInputArrayAllocSub, List.countP_cons, List.countP_nil],
        fun h0 => by
          simp only [polyDataGate] at h0
          simp [encodeInput, encodePolyDataInput, setInputArray, setInputJson, h0]⟩

/-- Witness for C2 (amended): with all gating counts zero, each canonical
sub-index of the all-empty mesh and polydata receives a size-0 allocator
call. -/
theorem c2_amended_witness :
    (GuestCall.inputArrayAlloc 0 0 0 0 (gBase.inputArrayAlloc 0 0 0 0) ∈
      (encodeInput gBase 0 (.mesh meshZero)).1) ∧
    (GuestCall.inputArrayAlloc 0 0 3 0 (gBase.inputArrayAlloc 0 0 3 0) ∈
      (encodeInput gBase 0 (.mesh meshZero)).1) ∧
    (GuestCall.inputArrayAlloc 0 0 0 0 (gBase.inputArrayAlloc 0 0 0 0) ∈
      (encodeInput gBase 0 (.polyData pdZero)).1) ∧
    (GuestCall.inputArrayAlloc 0 0 6 0 (gBase.inputArrayAlloc 0 0 6 0) ∈
      (encodeInput gBase 0 (.polyData pdZero)).1) :=
  ⟨((c2_amended gBase 0 meshZero pdZero).1 0 (by decide)).2 rfl,
   ((c2_amended gBase 0 meshZero pdZero).1 3 (by decide)).2 rfl,
   ((c2_amended gBase 0 meshZero pdZero).2 0 (by decide)).2 rfl,
   ((c2_amended gBase 0 meshZero pdZero).2 6 (by decide)).2 rfl⟩

/-- C6 (confirmed): for every kind, the encoding of an input produces
exactly the canonical allocator-call sequence followed by the descriptor
write, and every buffer field embedded in the JSON descriptor is exactly the
string `data:application/vnd.itk.address,0:N` where `N` is the base-10
rendering of the pointer returned by the `input_array_alloc` call made for
the same slot and sub-index (the recorded `inputArrayAlloc` event carries
that same pointer). -/
theorem c6_address_url_protocol :
    (∀ (g : Guest) (idx : Nat) (d : List Nat),
      encodeInput g idx (.textStream d) =
        ([GuestCall.inputArrayAlloc 0 idx 0 d.length (g.inputArrayAlloc 0 idx 0 d.length),
          GuestCall.inputJsonAlloc 0 idx (InputDesc.stream
            { size := d.length, data := addressUrl (g.inputArrayAlloc 0 idx 0 d.length) })],
         .ok (some (InputDesc.stream
            { size := d.length, data := addressUrl (g.inputArrayAlloc 0 idx 0 d.length) })))) ∧
    (∀ (g : Guest) (idx : Nat) (d : List Nat),
      encodeInput g idx (.binaryStream d) =
        ([GuestCall.inputArrayAlloc 0 idx 0 d.length (g.inputArrayAlloc 0 idx 0 d.length),
          GuestCall.inputJsonAlloc 0 idx (InputDesc.stream
            { size := d.length, data := addressUrl (g.inputArrayAlloc 0 idx 0 d.length) })],
         .ok (some (InputDesc.stream
            { size := d.length, data := addressUrl (g.inputArrayAlloc 0 idx 0 d.length) })))) ∧
    (∀ (g : Guest) (idx : Nat) (img : ImageInput),
      encodeInput g idx (.image img) =
        (let imageJson : ImageJson :=
          { imageType := img.imageType
            name := img.name
            origin := img.origin
            spacing := img.spacing
            direction := addressUrl (g.inputArrayAlloc 0 idx 1 img.direction.length)
            size := img.size
            data := addressUrl (g.inputArrayAlloc 0 idx 0 img.data.length) }
         ([GuestCall.inputArrayAlloc 0 idx 0 img.data.length
             (g.inputArrayAlloc 0 idx 0 img.data.length),
           GuestCall.inputArrayAlloc 0 idx 1 img.direction.length
             (g.inputArrayAlloc 0 idx 1 img.direction.length),
           GuestCall.inputJsonAlloc 0 idx (InputDesc.image imageJson)],
          .ok (some (InputDesc.image imageJson))))) ∧
    (∀ (g : Guest) (idx : Nat) (m : MeshInput),
      encodeInput g idx (.mesh m) =
        (let sz0 := (if m.numberOfPoints ≠ 0 then m.points else []).length
         let sz1 := (if m.numberOfCells ≠ 0 then m.cells else []).length
         let sz2 := (if m.numberOfPointPixels ≠ 0 then m.pointData else []).length
         let sz3 := (if m.numberOfCellPixels ≠ 0 then m.cellData else []).length
         let meshJson : MeshJson :=
          { meshType := m.meshType
            name := m.name
            numberOfPoints := m.numberOfPoints
            points := addressUrl (g.inputArrayAlloc 0 idx 0 sz0)
            numberOfCells := m.numberOfCells
            cells := addressUrl (g.inputArrayAlloc 0 idx 1 sz1)
            cellBufferSize := m.cellBufferSize
            numberOfPointPixels := m.numberOfPointPixels
            pointData := addressUrl (g.inputArrayAlloc 0 idx 2 sz2)
            numberOfCellPixels := m.numberOfCellPixels
            cellData := addressUrl (g.inputArrayAlloc 0 idx 3 sz3) }
         ([GuestCall.inputArrayAlloc 0 idx 0 sz0 (g.inputArrayAlloc 0 idx 0 sz0),
           GuestCall.inputArrayAlloc 0 idx 1 sz1 (g.inputArrayAlloc 0 idx 1 sz1),
           GuestCall.inputArrayAlloc 0 idx 2 sz2 (g.inputArrayAlloc 0 idx 2 sz2),
           GuestCall.inputArrayAlloc 0 idx 3 sz3 (g.inputArrayAlloc 0 idx 3 sz3),
           GuestCall.inputJsonAlloc 0 idx (InputDesc.mesh meshJson)],
          .ok (some (InputDesc.mesh meshJson))))) ∧
    (∀ (g : Guest) (idx : Nat) (pd : PolyDataInput),
      encodeInput g idx (.polyData pd) =
        (let sz0 := (if pd.numberOfPoints ≠ 0 then pd.points else []).length
         let sz1 := (if pd.verticesBufferSize ≠ 0 then pd.vertices else []).length
         let sz2 := (if pd.linesBufferSize ≠ 0 then pd.lines else []).length
         let sz3 := (if pd.polygonsBufferSize ≠ 0 then pd.polygons else []).length
         let sz4 := (if pd.triangleStripsBufferSize ≠ 0 then pd.triangleStrips else []).length
         let sz5 := (if pd.numberOfPointPixels ≠ 0 then pd.pointData else []).length
         let sz6 := (if pd.numberOfCellPixels ≠ 0 then pd.cellData else []).length
         let polydataJson : PolyDataJson :=
          { polyDataType := pd.polyDataType
            name := pd.name
            numberOfPoints := pd.numberOfPoints
            points := addressUrl (g.inputArrayAlloc 0 idx 0 sz0)
            verticesBufferSize := pd.verticesBufferSize
            vertices := addressUrl (g.inputArrayAlloc 0 idx 1 sz1)
            linesBufferSize := pd.linesBufferSize
            lines := addressUrl (g.inputArrayAlloc 0 idx 2 sz2)
            polygonsBufferSize := pd.polygonsBufferSize
            polygons := addressUrl (g.inputArrayAlloc 0 idx 3 sz3)
            triangleStripsBufferSize := pd.triangleStripsBufferSize
            triangleStrips := addressUrl (g.inputArrayAlloc 0 idx 4 sz4)
            numberOfPointPixels := pd.numberOfPointPixels
            pointData := addressUrl (g.inputArrayAlloc 0 idx 5 sz5)
            numberOfCellPixels := pd.numberOfCellPixels
            cellData := addressUrl (g.inputArrayAlloc 0 idx 6 sz6) }
         ([GuestCall.inputArrayAlloc 0 idx 0 sz0 (g.inputArrayAlloc 0 idx 0 sz0),
           GuestCall.inputArrayAlloc 0 idx 1 sz1 (g.inputArrayAlloc 0 idx 1 sz1),
           GuestCall.inputArrayAlloc 0 idx 2 sz2 (g.inputArrayAlloc 0 idx 2 sz2),
           GuestCall.inputArrayAlloc 0 idx 3 sz3 (g.inputArrayAlloc 0 idx 3 sz3),
           GuestCall.inputArrayAlloc 0 idx 4 sz4 (g.inputArrayAlloc 0 idx 4 sz4),
           GuestCall.inputArrayAlloc 0 idx 5 sz5 (g.inputArrayAlloc 0 idx 5 sz5),
           GuestCall.inputArrayAlloc 0 idx 6 sz6 (g.inputArrayAlloc 0 idx 6 sz6),
           GuestCall.inputJsonAlloc 0 idx (InputDesc.polyData polydataJson)],
          .ok (some (InputDesc.polyData polydataJson))))) := by
  refine ⟨?_, ?_, ?_, ?_, ?_⟩ <;> intros <;> rfl

/-- C3 counterexample: when the guest's `Image` output descriptor fails to
parse, the run aborts after `itk_wasm_delayed_start` has returned and
`itk_wasm_delayed_exit` is never invoked — `delayed_start` was invoked once
and `delayed_exit` zero times, refuting exactly-once on failure paths. -/
theorem c3_counterexample :
    (Pipeline.run gBase [] [PipelineOutputSpec.image] []).result =
      .error (.decodeError "parse failure") ∧
    (Pipeline.run gBase [] [PipelineOutputSpec.image] []).trace.countP
      (fun c => c.isDelayedStartEv) = 1 ∧
    (Pipeline.run gBase [] [PipelineOutputSpec.image] []).trace.countP
      (fun c => c.isDelayedExitEv) = 0 :=
  ⟨rfl, by decide, by decide⟩
